import Mathlib

/-!
# Verification of the Manim render pipeline (`src/app.py`)

A shallow embedding, in Lean 4, of the core job-execution pipeline of
`app.py`: the scene-class extractor (`extract_scene_class_name`,
lines 264-273), the progress-parsing loop inside `generate_manim_video`
(lines 491-544 together with the forced final report at line 578), the
artifact-resolution phase (lines 583-737), the FFmpeg fallback converter
(`mp4_to_gif`, lines 361-384) and the cleanup `finally` block
(lines 753-760).

Python strings are modelled as `List Char`; machine text predicates
(`in`, `str.split`, `str.strip`, `re.search` on the concrete patterns of
the source) are implemented directly over character lists.  Fractions sent
to the Streamlit progress bar are modelled as `ℚ`.  The filesystem and the
subprocess layer are modelled as an explicit environment record of pure
oracles (`Env`), so a run of the pipeline is a pure function of its inputs
and environment.
-/

namespace ManimBuild

abbrev Chars := List Char

def strChars (s : String) : Chars := s.data

/-- ASCII whitespace recognized by Python `str.strip` / `str.split` /
the regex class `\s` (restricted to the ASCII fragment). -/
def isSpaceCh (c : Char) : Bool :=
  c == ' ' || c == '\t' || c == '\n' || c == '\r' || c == '\x0b' || c == '\x0c'

/-- ASCII fragment of the Python regex class `\w`: letters, digits, underscore. -/
def isWordChar (c : Char) : Bool := c.isAlphanum || c == '_'

/-- Drop `pat` from the front of `s`; `none` when `pat` is not a prefix. -/
def dropPrefixCh : Chars → Chars → Option Chars
  | [], s => some s
  | _ :: _, [] => none
  | p :: ps, c :: cs => if p == c then dropPrefixCh ps cs else none

/-- Python substring test `pat in s` (for non-empty and empty `pat` alike). -/
def hasSubstr (pat : Chars) : Chars → Bool
  | [] => pat.isEmpty
  | c :: cs => (dropPrefixCh pat (c :: cs)).isSome || hasSubstr pat cs

/-- Value of a digit run, as read by Python `int` / regex `\d+` capture. -/
def charsToNat (ds : Chars) : Nat :=
  ds.foldl (fun a c => a * 10 + (c.toNat - 48)) 0

/-! ## Scene Identifier Extractor (`extract_scene_class_name`, app.py 264-273)

The source runs `re.findall(r'class\s+(\w+)\s*\([^)]*Scene[^)]*\)', code)`
and returns the first capture, defaulting to `"MyScene"`.  At a fixed
position the pattern matches exactly when the text reads: literal `class`,
one or more whitespace characters, a maximal non-empty run of word
characters (the capture), optional whitespace, `(`, then a run of
non-`)` characters that contains `Scene` and is terminated by `)`.
(`\s+`/`\w+` backtracking is vacuous here because the neighbouring
character classes are disjoint, and `[^)]*` cannot cross the first `)`.) -/

def sceneClassMatchAt (s : Chars) : Option Chars :=
  match dropPrefixCh (strChars "class") s with
  | none => none
  | some r1 =>
    if (r1.takeWhile isSpaceCh).isEmpty then none
    else
      let r2 := r1.dropWhile isSpaceCh
      let ident := r2.takeWhile isWordChar
      if ident.isEmpty then none
      else
        match (r2.dropWhile isWordChar).dropWhile isSpaceCh with
        | '(' :: r4 =>
          let inner := r4.takeWhile (fun c => c != ')')
          match r4.dropWhile (fun c => c != ')') with
          | ')' :: _ => if hasSubstr (strChars "Scene") inner then some ident else none
          | _ => none
        | _ => none

/-- Leftmost match of the scene-class pattern (`re` scans positions left
to right), returning the captured identifier. -/
def sceneClassSearch : Chars → Option Chars
  | [] => none
  | c :: cs =>
    match sceneClassMatchAt (c :: cs) with
    | some ident => some ident
    | none => sceneClassSearch cs

/-- Model of `extract_scene_class_name` (app.py 264-273): first captured scene-class
identifier, else the fixed default `"MyScene"`. -/
def extract_scene_class_name (python_code : String) : String :=
  match sceneClassSearch python_code.data with
  | some ident => String.mk ident
  | none => "MyScene"

/-! Positional characterization of `sceneClassSearch`. -/

theorem sceneClassSearch_eq_some (l : Chars) (i : Nat) (ident : Chars)
    (h : sceneClassMatchAt (l.drop i) = some ident)
    (hfirst : ∀ j, j < i → sceneClassMatchAt (l.drop j) = none) :
    sceneClassSearch l = some ident := by
  induction l generalizing i with
  | nil =>
    rw [List.drop_nil] at h
    have hnone : sceneClassMatchAt ([] : Chars) = none := by decide
    rw [hnone] at h
    exact Option.noConfusion h
  | cons c cs ih =>
    cases i with
    | zero =>
      simp only [List.drop_zero] at h
      simp [sceneClassSearch, h]
    | succ n =>
      have h0 : sceneClassMatchAt (c :: cs) = none := by
        have := hfirst 0 (Nat.succ_pos n)
        simpa using this
      simp only [sceneClassSearch, h0]
      exact ih n (by simpa using h) (fun j hj => by
        have := hfirst (j + 1) (Nat.succ_lt_succ hj)
        simpa using this)

theorem sceneClassSearch_eq_none (l : Chars)
    (h : ∀ i, sceneClassMatchAt (l.drop i) = none) :
    sceneClassSearch l = none := by
  induction l with
  | nil => rfl
  | cons c cs ih =>
    have h0 : sceneClassMatchAt (c :: cs) = none := by simpa using h 0
    simp only [sceneClassSearch, h0]
    exact ih (fun i => by simpa using h (i + 1))

/-- C4 — `extract_scene_class_name` is total and deterministic (it is a plain
Lean function of the input text): whenever the text has a scene-class
declaration match (pattern `class\s+(\w+)\s*\([^)]*Scene[^)]*\)`) at
position `i` and none at any earlier position, the function returns that
first match's captured identifier; when no position of the text matches,
it returns the fixed default `"MyScene"`.  Malformed input has no match
and therefore yields the default; there are no side effects to model. -/
theorem extract_scene_class_name_first_or_default (code : String) :
    (∀ i ident, sceneClassMatchAt (code.data.drop i) = some ident →
      (∀ j, j < i → sceneClassMatchAt (code.data.drop j) = none) →
      extract_scene_class_name code = String.mk ident)
    ∧ ((∀ i, sceneClassMatchAt (code.data.drop i) = none) →
      extract_scene_class_name code = "MyScene") := by
  constructor
  · intro i ident h hfirst
    unfold extract_scene_class_name
    rw [sceneClassSearch_eq_some code.data i ident h hfirst]
  · intro h
    unfold extract_scene_class_name
    rw [sceneClassSearch_eq_none code.data h]

/-- Witness for C4: on `"class Foo(Scene): pass"` the first (position-0)
match captures `Foo`, and on the empty text no position matches, so the
default is returned. -/
theorem extract_scene_class_name_first_or_default_witness :
    extract_scene_class_name "class Foo(Scene): pass" = "Foo" ∧
    extract_scene_class_name "" = "MyScene" := by
  constructor
  · exact (extract_scene_class_name_first_or_default "class Foo(Scene): pass").1 0
      (strChars "Foo") (by decide) (fun j hj => absurd hj (Nat.not_lt_zero j))
  · exact (extract_scene_class_name_first_or_default "").2 (fun i => by
      show sceneClassMatchAt (List.drop i []) = none
      rw [List.drop_nil]
      decide)

/-! ## Process Runner & Progress Parser (`generate_manim_video`, app.py 491-578)

The output-draining loop reads the merged stdout/stderr stream line by
line.  For claims about progress we model the per-line progress chain
(the `if`/`elif` cascade at lines 499-544) as a pure step function on the
loop's mutable variables, and a job's reported fractions as the emissions
of that chain followed by the forced `progress_bar.progress(1.0)` of
line 578.  (Lines swallowed by the `"File ready at"` path accumulator at
lines 547-574 never reach the progress chain; that only removes lines
from the sequence the chain sees, and the claims below quantify over all
line sequences.)  The Streamlit progress bar is modelled as a recorder of
the `ℚ` values passed to `progress_bar.progress`. -/

/-- Leading digit run parsed as `int` (the regex `\d+` capture). -/
def parseIntTok (t : Chars) : Option Nat :=
  if !t.isEmpty && t.all Char.isDigit then some (charsToNat t) else none

/-- Python `float` on the plain decimal forms `digits`, `digits.digits`,
`.digits`, `digits.` (the fragment relevant to percent tokens; exponent
and named forms are treated as parse failures, which the source would
accept — no claim below depends on them). -/
def parseDecimal (t : Chars) : Option ℚ :=
  let ds := t.takeWhile Char.isDigit
  match t.dropWhile Char.isDigit with
  | [] => if ds.isEmpty then none else some ((charsToNat ds : ℚ))
  | '.' :: frac =>
    let fs := frac.takeWhile Char.isDigit
    if !(frac.dropWhile Char.isDigit).isEmpty then none
    else if ds.isEmpty && fs.isEmpty then none
    else some ((charsToNat ds : ℚ) + (charsToNat fs : ℚ) / ((10 : ℚ) ^ fs.length))
  | _ => none

def parseFloatTok (t : Chars) : Option ℚ :=
  match t with
  | '+' :: r => parseDecimal r
  | '-' :: r => (parseDecimal r).map (fun q => -q)
  | _ => parseDecimal t

/-- Suffix after the first occurrence of `pat` (`str.split(pat)[1:]` start). -/
def afterMarker (pat : Chars) : Chars → Option Chars
  | [] => none
  | c :: cs =>
    match dropPrefixCh pat (c :: cs) with
    | some r => some r
    | none => afterMarker pat cs

/-- Prefix up to the next occurrence of `pat` (completing `str.split(pat)[1]`). -/
def beforeMarker (pat : Chars) : Chars → Chars
  | [] => []
  | c :: cs =>
    if (dropPrefixCh pat (c :: cs)).isSome then [] else c :: beforeMarker pat cs

/-- First whitespace-separated token (`.strip().split()[0]`); `none` models
the `IndexError` on an all-whitespace string, caught by the source. -/
def firstTok (s : Chars) : Option Chars :=
  let t := (s.dropWhile isSpaceCh).takeWhile (fun c => !isSpaceCh c)
  if t.isEmpty then none else some t

/-- Last whitespace-separated token (`.strip().split()[-1]`). -/
def lastTok (s : Chars) : Option Chars :=
  let t := (s.reverse.dropWhile isSpaceCh).takeWhile (fun c => !isSpaceCh c)
  if t.isEmpty then none else some t.reverse

/-- Python `min(a, b)`: the first argument when `a ≤ b`, else the second
(kept as an executable `if` so that concrete runs evaluate). -/
def pymin (a b : ℚ) : ℚ := if a ≤ b then a else b

theorem pymin_eq_min (a b : ℚ) : pymin a b = min a b := (min_def a b).symm

/-- Line guard of branch 1 (app.py 500):
`"Rendering animation number" in line or "Processing animation" in line`. -/
def lineHasAnimKeyword (l : Chars) : Bool :=
  hasSubstr (strChars "Rendering animation number") l ||
  hasSubstr (strChars "Processing animation") l

/-- Positional match of the animation-count regex (app.py 503):
`(?:Rendering animation number|Processing animation) (\d+) (?:out of|/) (\d+)`.
Group captures are maximal digit runs (the neighbouring literal is a space,
disjoint from `\d`, so regex backtracking is vacuous). -/
def animMatchAt (s : Chars) : Option (Nat × Nat) :=
  match (dropPrefixCh (strChars "Rendering animation number") s).orElse
      (fun _ => dropPrefixCh (strChars "Processing animation") s) with
  | none => none
  | some r1 =>
    match r1 with
    | ' ' :: r2 =>
      let ds1 := r2.takeWhile Char.isDigit
      if ds1.isEmpty then none
      else
        match r2.dropWhile Char.isDigit with
        | ' ' :: r3 =>
          match (dropPrefixCh (strChars "out of") r3).orElse
              (fun _ => dropPrefixCh (strChars "/") r3) with
          | none => none
          | some r4 =>
            match r4 with
            | ' ' :: r5 =>
              let ds2 := r5.takeWhile Char.isDigit
              if ds2.isEmpty then none else some (charsToNat ds1, charsToNat ds2)
            | _ => none
        | _ => none
    | _ => none

/-- Search of the animation-count pattern as `re.search` performs it: leftmost
matching position. -/
def animSearch : Chars → Option (Nat × Nat)
  | [] => none
  | c :: cs =>
    match animMatchAt (c :: cs) with
    | some r => some r
    | none => animSearch cs

/-- Line guard of branch 2 (app.py 517). -/
def lineHasTotalFramesKey (l : Chars) : Bool :=
  hasSubstr (strChars "Render animations with total frames:") l

/-- Branch 2 body (app.py 519):
`int(line.split("Render animations with total frames:")[1].strip().split()[0])`;
`none` models the caught parse exceptions. -/
def totalFramesValue (l : Chars) : Option Nat :=
  match afterMarker (strChars "Render animations with total frames:") l with
  | none => none
  | some r =>
    match firstTok (beforeMarker (strChars "Render animations with total frames:") r) with
    | none => none
    | some t => parseIntTok t

/-- Line guard of branch 3 (app.py 525). -/
def lineHasFrameKey (l : Chars) : Bool :=
  hasSubstr (strChars "Rendering frame") l

/-- Positional match of `Rendering frame (\d+)` (app.py 528). -/
def frameMatchAt (s : Chars) : Option Nat :=
  match dropPrefixCh (strChars "Rendering frame ") s with
  | none => none
  | some r =>
    let ds := r.takeWhile Char.isDigit
    if ds.isEmpty then none else some (charsToNat ds)

/-- Search for `Rendering frame (\d+)` as `re.search` performs it: leftmost
position. -/
def frameSearch : Chars → Option Nat
  | [] => none
  | c :: cs =>
    match frameMatchAt (c :: cs) with
    | some r => some r
    | none => frameSearch cs

/-- Line guard of branch 4 (app.py 538): `"%" in line`. -/
def lineHasPercent (l : Chars) : Bool := hasSubstr (strChars "%") l

/-- Branch 4 body (app.py 541):
`float(line.split("%")[0].strip().split()[-1])`; `none` models the bare
`except: pass`. -/
def percentValue (l : Chars) : Option ℚ :=
  match lastTok (l.takeWhile (fun c => c != '%')) with
  | none => none
  | some t => parseFloatTok t

/-- The loop's progress-tracking variables (app.py 486-489).  Python
truthiness tests (`not total_animations`, `and total_frames`) treat both
`None` and `0` as false, so the counters are `Option Nat` with an explicit
truthiness function. -/
structure LoopState where
  totalAnimations : Option Nat
  currentAnimation : Nat
  totalFrames : Option Nat
  currentFrame : Nat
deriving Repr, DecidableEq

def initLoopState : LoopState :=
  { totalAnimations := none, currentAnimation := 0, totalFrames := none, currentFrame := 0 }

/-- Python truthiness of an optional integer (`None` and `0` are falsy). -/
def optTruthyNat : Option Nat → Bool
  | none => false
  | some n => n != 0

/-- One pass of the progress `if`/`elif` chain (app.py 499-544) on a single
line: the updated variables and the fraction passed to
`progress_bar.progress`, if any.  In branch 1 the counter assignments
(lines 505-506) happen before the division of line 510, so an
animation-count line with total `0` records `total_animations = 0` and then
raises `ZeroDivisionError`, caught at line 513 — no fraction is reported
but the assignments persist. -/
def processLine (s : LoopState) (l : Chars) : LoopState × Option ℚ :=
  if lineHasAnimKeyword l then
    match animSearch l with
    | some (n, m) =>
      let s' := { s with currentAnimation := n, totalAnimations := some m }
      if m == 0 then (s', none)
      else (s', some ((n : ℚ) / (m : ℚ)))
    | none => (s, none)
  else if lineHasTotalFramesKey l && !(optTruthyNat s.totalAnimations) then
    match totalFramesValue l with
    | some t => ({ s with totalFrames := some t }, none)
    | none => (s, none)
  else if lineHasFrameKey l && optTruthyNat s.totalFrames && !(optTruthyNat s.totalAnimations) then
    match frameSearch l, s.totalFrames with
    | some n, some t =>
      ({ s with currentFrame := n }, some (pymin (99 / 100 : ℚ) ((n : ℚ) / (t : ℚ))))
    | _, _ => (s, none)
  else if lineHasPercent l && !(optTruthyNat s.totalAnimations) && !(optTruthyNat s.totalFrames) then
    match percentValue l with
    | some p => (s, some (pymin (99 / 100 : ℚ) (p / 100)))
    | none => (s, none)
  else (s, none)

/-- The loop over the stream's lines: final variables and the sequence of
fractions reported to the progress bar, in order. -/
def runLines (s : LoopState) : List Chars → LoopState × List ℚ
  | [] => (s, [])
  | l :: ls =>
    let r := processLine s l
    let rest := runLines r.1 ls
    (rest.1, match r.2 with | some q => q :: rest.2 | none => rest.2)

/-- The full sequence of fractions a job reports: the loop's emissions
followed by the forced `progress_bar.progress(1.0)` after `process.wait()`
(app.py 576-578). -/
def jobReportedFractions (ls : List Chars) : List ℚ :=
  (runLines initLoopState ls).2 ++ [1]

/-! Helper lemmas about the progress chain. -/

theorem runLines_nil (s : LoopState) : runLines s [] = (s, []) := rfl

/-- Unfolding `runLines` one step. -/
theorem runLines_cons (s : LoopState) (l : Chars) (ls : List Chars) :
    runLines s (l :: ls)
      = ((runLines (processLine s l).1 ls).1,
         match (processLine s l).2 with
         | some q => q :: (runLines (processLine s l).1 ls).2
         | none => (runLines (processLine s l).1 ls).2) := rfl

/-- On a line matched by the animation-count regex, branch 1 records the
two captured counters (app.py 505-506), whether or not the subsequent
division succeeds. -/
theorem processLine_anim_sets (s : LoopState) (l : Chars) (n m : Nat)
    (hkey : lineHasAnimKeyword l = true) (h : animSearch l = some (n, m)) :
    (processLine s l).1 = { s with currentAnimation := n, totalAnimations := some m } := by
  simp only [processLine, hkey, h, if_true]
  split <;> rfl

/-- Branch 1 with a positive total (app.py 500-512): record the counters
and report `N / M`. -/
theorem processLine_anim_emits (s : LoopState) (l : Chars) (n m : Nat)
    (hkey : lineHasAnimKeyword l = true) (h : animSearch l = some (n, m))
    (hm : m ≠ 0) :
    processLine s l
      = ({ s with currentAnimation := n, totalAnimations := some m },
         some ((n : ℚ) / (m : ℚ))) := by
  simp [processLine, hkey, h, hm]

/-- Branch 1 with a zero total (app.py 505-513): the counters are recorded,
then `current_animation / total_animations` raises `ZeroDivisionError`,
caught at line 513 — nothing is reported. -/
theorem processLine_anim_zero (s : LoopState) (l : Chars) (n : Nat)
    (hkey : lineHasAnimKeyword l = true) (h : animSearch l = some (n, 0)) :
    processLine s l
      = ({ s with currentAnimation := n, totalAnimations := some 0 }, none) := by
  simp [processLine, hkey, h]

/-- Branch 3 (app.py 525-535): with a truthy recorded total frame count
and falsy `total_animations`, a current-frame line reports
`min(0.99, current / total)`. -/
theorem processLine_frame (s : LoopState) (l : Chars) (n t : Nat)
    (h1 : lineHasAnimKeyword l = false) (h2 : lineHasTotalFramesKey l = false)
    (h3 : lineHasFrameKey l = true) (hTF : s.totalFrames = some t) (ht : t ≠ 0)
    (hTA : optTruthyNat s.totalAnimations = false)
    (h : frameSearch l = some n) :
    processLine s l
      = ({ s with currentFrame := n },
         some (pymin (99 / 100 : ℚ) ((n : ℚ) / (t : ℚ)))) := by
  have hts : optTruthyNat (some t) = true := by simpa [optTruthyNat] using ht
  simp [processLine, h1, h2, h3, hTA, h, hTF, hts]

/-- Branch 4 (app.py 538-544): with both structured counters falsy, a line
containing `%` whose leading token parses reports `min(0.99, percent/100)`. -/
theorem processLine_percent (s : LoopState) (l : Chars) (p : ℚ)
    (h1 : lineHasAnimKeyword l = false) (h2 : lineHasTotalFramesKey l = false)
    (hTF : optTruthyNat s.totalFrames = false)
    (hTA : optTruthyNat s.totalAnimations = false)
    (h4 : lineHasPercent l = true) (hp : percentValue l = some p) :
    processLine s l = (s, some (pymin (99 / 100 : ℚ) (p / 100))) := by
  simp [processLine, h1, h2, hTF, hTA, h4, hp]

/-- While `total_animations` is truthy, every line that does not carry an
animation keyword leaves the loop variables unchanged and reports no
fraction: branches 2, 3 and 4 are all guarded by `not total_animations`. -/
theorem processLine_suppressed (s : LoopState) (l : Chars)
    (hA : optTruthyNat s.totalAnimations = true)
    (hkey : lineHasAnimKeyword l = false) :
    processLine s l = (s, none) := by
  unfold processLine
  simp [hkey, hA]

/-- Truthiness of `total_animations` persists across any line whose
animation-count match (if any) has a positive total. -/
theorem processLine_truthy_persists (s : LoopState) (l : Chars)
    (hA : optTruthyNat s.totalAnimations = true)
    (hm : ∀ n m, animSearch l = some (n, m) → 1 ≤ m) :
    optTruthyNat (processLine s l).1.totalAnimations = true := by
  by_cases hkey : lineHasAnimKeyword l = true
  · cases hsearch : animSearch l with
    | none =>
      unfold processLine
      rw [hkey, hsearch]
      simpa using hA
    | some nm =>
      obtain ⟨n, m⟩ := nm
      rw [processLine_anim_sets s l n m hkey hsearch]
      have : 1 ≤ m := hm n m hsearch
      simp [optTruthyNat]
      omega
  · rw [processLine_suppressed s l hA (by simpa using hkey)]
    exact hA

/-- General suppression: from any state with truthy `total_animations`,
lines without the animation keyword are no-ops, so the run over any line
list (whose animation matches all have positive totals) coincides — in
final state and in every reported fraction — with the run over only its
animation-keyword lines. -/
theorem runLines_animation_only (s : LoopState) (ls : List Chars)
    (hA : optTruthyNat s.totalAnimations = true)
    (hm : ∀ l ∈ ls, ∀ n m, animSearch l = some (n, m) → 1 ≤ m) :
    runLines s ls = runLines s (ls.filter lineHasAnimKeyword) := by
  induction ls generalizing s with
  | nil => rfl
  | cons l ls ih =>
    by_cases hkey : lineHasAnimKeyword l = true
    · have hfilter : (l :: ls).filter lineHasAnimKeyword
          = l :: ls.filter lineHasAnimKeyword := by
        simp [List.filter, hkey]
      have hA' : optTruthyNat (processLine s l).1.totalAnimations = true :=
        processLine_truthy_persists s l hA (hm l (List.mem_cons_self l ls))
      rw [hfilter, runLines_cons, runLines_cons,
        ih (processLine s l).1 hA' (fun x hx => hm x (List.mem_cons_of_mem l hx))]
    · have hkey' : lineHasAnimKeyword l = false := by simpa using hkey
      have hfilter : (l :: ls).filter lineHasAnimKeyword
          = ls.filter lineHasAnimKeyword := by
        simp [List.filter, hkey']
      rw [hfilter, runLines_cons, processLine_suppressed s l hA hkey']
      exact ih s hA (fun x hx => hm x (List.mem_cons_of_mem l hx))

/-- C3 (counterexample) — the claim fails as stated: the line
`"Processing animation 1 / 0"` matches the animation-count pattern
(captures `(1, 0)`), is processed by branch 1, and records
`total_animations = 0`; but `0` is falsy in Python, so the subsequent
bare-percentage line `" 50%"` still passes the `not total_animations`
guard and reports the fraction `0.5`.  The AnimationCount pattern did not
suppress the RawPercent strategy. -/
theorem animationCount_suppression_counterexample :
    animSearch (strChars "Processing animation 1 / 0") = some (1, 0) ∧
    lineHasAnimKeyword (strChars "Processing animation 1 / 0") = true ∧
    (runLines initLoopState
      [strChars "Processing animation 1 / 0", strChars " 50%"]).2 = [(1 : ℚ) / 2] := by
  refine ⟨by decide, by decide, ?_⟩
  rw [runLines_cons,
    processLine_anim_zero initLoopState (strChars "Processing animation 1 / 0") 1
      (by decide) (by decide)]
  dsimp only [initLoopState]
  rw [runLines_cons,
    processLine_percent ⟨some 0, 1, none, 0⟩ (strChars " 50%") 50
      (by decide) (by decide) (by decide) (by decide) (by decide) (by decide),
    runLines_nil]
  norm_num [pymin]

/-- C3 (amended) — once a line matching the animation-count pattern with a
*positive* total `M ≥ 1` has been processed, and as long as no later
animation-count line reports a zero total, subsequent total-frame-count,
current-frame and bare-percentage lines never change the loop state or the
reported progress: the rest of the run is identical to the run over its
animation-keyword lines alone. -/
theorem animationCount_suppresses_other_strategies
    (s : LoopState) (l0 : Chars) (n m : Nat) (ls : List Chars)
    (hkey0 : lineHasAnimKeyword l0 = true)
    (h0 : animSearch l0 = some (n, m)) (hm0 : 1 ≤ m)
    (hm : ∀ l ∈ ls, ∀ a b, animSearch l = some (a, b) → 1 ≤ b) :
    runLines (processLine s l0).1 ls
      = runLines (processLine s l0).1 (ls.filter lineHasAnimKeyword) := by
  apply runLines_animation_only
  · rw [processLine_anim_sets s l0 n m hkey0 h0]
    simp [optTruthyNat]
    omega
  · exact hm

/-- Witness for C3 (amended): after `"Processing animation 1 / 2"`
(total `2 ≥ 1`), the percentage line `" 50%"` is a no-op — the run over
`[" 50%"]` equals the run over the empty list. -/
theorem animationCount_suppresses_other_strategies_witness :
    runLines (processLine initLoopState (strChars "Processing animation 1 / 2")).1
        [strChars " 50%"]
      = runLines (processLine initLoopState (strChars "Processing animation 1 / 2")).1
        ([strChars " 50%"].filter lineHasAnimKeyword) := by
  exact animationCount_suppresses_other_strategies initLoopState
    (strChars "Processing animation 1 / 2") 1 2 [strChars " 50%"]
    (by decide) (by decide) (by decide)
    (fun l hl a b hab => by
      have hl' : l = strChars " 50%" := by simpa using hl
      subst hl'
      have hnone : animSearch (strChars " 50%") = none := by decide
      rw [hnone] at hab
      exact Option.noConfusion hab)

/-- Monotonicity of `pymin c ·` in its second argument. -/
theorem pymin_mono_right (c : ℚ) {a b : ℚ} (h : a ≤ b) : pymin c a ≤ pymin c b := by
  rw [pymin_eq_min, pymin_eq_min]
  exact min_le_min le_rfl h

/-- C2 (counterexample) — the claim fails as stated: in the run over the
two bare-percentage lines `" 90%"` and `" 10%"` — both handled by the same
RawPercent branch, with no strategy change anywhere — the reported
fractions are `[0.9, 0.1]`: the later report is strictly lower than the
earlier one.  The chain reports each line's own value and keeps no running
maximum (app.py 538-544). -/
theorem progress_monotonicity_counterexample :
    (runLines initLoopState [strChars " 90%", strChars " 10%"]).2
      = [(9 : ℚ) / 10, (1 : ℚ) / 10] ∧ (1 : ℚ) / 10 < (9 : ℚ) / 10 := by
  constructor
  · rw [runLines_cons,
      processLine_percent initLoopState (strChars " 90%") 90
        (by decide) (by decide) (by decide) (by decide) (by decide) (by decide)]
    dsimp only
    rw [runLines_cons,
      processLine_percent initLoopState (strChars " 10%") 10
        (by decide) (by decide) (by decide) (by decide) (by decide) (by decide),
      runLines_nil]
    norm_num [pymin]
  · norm_num

/-- With both structured counters falsy, a list of bare-percentage lines
reports exactly `min(0.99, p/100)` for each line's parsed percent, leaving
the state unchanged. -/
theorem runLines_percent_map (s : LoopState) (ls : List Chars) (qs : List ℚ)
    (hTA : optTruthyNat s.totalAnimations = false)
    (hTF : optTruthyNat s.totalFrames = false)
    (hshape : ∀ l ∈ ls, lineHasAnimKeyword l = false ∧ lineHasTotalFramesKey l = false ∧
        lineHasPercent l = true)
    (hvals : List.Forall₂ (fun l q => percentValue l = some q) ls qs) :
    runLines s ls = (s, qs.map (fun p => pymin (99 / 100 : ℚ) (p / 100))) := by
  revert hshape
  induction hvals with
  | nil => intro _; rfl
  | @cons l q ls' qs' hlq hrest ih =>
    intro hshape
    have hs := hshape l (List.mem_cons_self _ _)
    rw [runLines_cons, processLine_percent s l q hs.1 hs.2.1 hTF hTA hs.2.2 hlq]
    dsimp only
    rw [ih (fun x hx => hshape x (List.mem_cons_of_mem _ hx))]
    rfl

/-- C2 (amended) — the reported fraction is computed from the current line
alone, with no running maximum, so monotonicity holds exactly when the
engine's own signal values are non-decreasing.  Representative statement
for the strategy of the counterexample: starting from a state where
neither structured counter is truthy, over any stream of bare-percentage
lines the reported fractions are precisely `min(0.99, pᵢ/100)` in order,
and if the parsed percent values `pᵢ` are non-decreasing then the reported
sequence is monotonically non-decreasing. -/
theorem rawPercent_reports_monotone (s : LoopState) (ls : List Chars) (qs : List ℚ)
    (hTA : optTruthyNat s.totalAnimations = false)
    (hTF : optTruthyNat s.totalFrames = false)
    (hshape : ∀ l ∈ ls, lineHasAnimKeyword l = false ∧ lineHasTotalFramesKey l = false ∧
        lineHasPercent l = true)
    (hvals : List.Forall₂ (fun l q => percentValue l = some q) ls qs)
    (hmono : qs.Chain' (· ≤ ·)) :
    (runLines s ls).2 = qs.map (fun p => pymin (99 / 100 : ℚ) (p / 100)) ∧
    ((runLines s ls).2).Chain' (· ≤ ·) := by
  have hmap := runLines_percent_map s ls qs hTA hTF hshape hvals
  refine ⟨by rw [hmap], ?_⟩
  rw [hmap]
  dsimp only
  rw [List.chain'_map]
  exact hmono.imp (fun a b hab =>
    pymin_mono_right _ ((div_le_div_iff_of_pos_right (by norm_num : (0 : ℚ) < 100)).mpr hab))

/-- Witness for C2 (amended): over `[" 10%", " 90%"]` (non-decreasing
percents) the reports are `[min(0.99, 0.10), min(0.99, 0.90)]`, a
non-decreasing sequence. -/
theorem rawPercent_reports_monotone_witness :
    (runLines initLoopState [strChars " 10%", strChars " 90%"]).2
      = [(10 : ℚ), 90].map (fun p => pymin (99 / 100 : ℚ) (p / 100)) ∧
    ((runLines initLoopState [strChars " 10%", strChars " 90%"]).2).Chain' (· ≤ ·) := by
  refine rawPercent_reports_monotone initLoopState
    [strChars " 10%", strChars " 90%"] [(10 : ℚ), 90]
    (by decide) (by decide) ?_ ?_ ?_
  · intro l hl
    simp only [List.mem_cons, List.not_mem_nil, or_false] at hl
    rcases hl with h | h <;> subst h <;> exact ⟨by decide, by decide, by decide⟩
  · exact List.Forall₂.cons (by decide)
      (List.Forall₂.cons (by decide) List.Forall₂.nil)
  · simp [List.chain'_cons]
    norm_num

/-- C5 — while the process is still draining (per-line reports): a
current-frame line reports exactly `min(0.99, current/total)` and a
bare-percentage line exactly `min(0.99, percent/100)`, each strictly
below `1`; and after the process exits, the final fraction of the job's
reported sequence is the forced `1.0` of app.py 578. -/
theorem capped_fractions_and_final_one (s : LoopState) (l : Chars) (ls : List Chars) :
    (∀ n t, lineHasAnimKeyword l = false → lineHasTotalFramesKey l = false →
      lineHasFrameKey l = true → optTruthyNat s.totalAnimations = false →
      s.totalFrames = some t → t ≠ 0 → frameSearch l = some n →
      (processLine s l).2 = some (pymin (99 / 100 : ℚ) ((n : ℚ) / (t : ℚ))) ∧
        pymin (99 / 100 : ℚ) ((n : ℚ) / (t : ℚ)) < 1)
    ∧ (∀ p, lineHasAnimKeyword l = false → lineHasTotalFramesKey l = false →
      optTruthyNat s.totalAnimations = false → optTruthyNat s.totalFrames = false →
      lineHasPercent l = true → percentValue l = some p →
      (processLine s l).2 = some (pymin (99 / 100 : ℚ) (p / 100)) ∧
        pymin (99 / 100 : ℚ) (p / 100) < 1)
    ∧ (jobReportedFractions ls).getLast? = some 1 := by
  refine ⟨?_, ?_, ?_⟩
  · intro n t h1 h2 h3 hTA hTF ht h
    rw [processLine_frame s l n t h1 h2 h3 hTF ht hTA h]
    have hle : pymin (99 / 100 : ℚ) ((n : ℚ) / (t : ℚ)) ≤ 99 / 100 := by
      rw [pymin_eq_min]
      exact min_le_left _ _
    exact ⟨rfl, lt_of_le_of_lt hle (by norm_num)⟩
  · intro p h1 h2 hTA hTF h4 hp
    rw [processLine_percent s l p h1 h2 hTF hTA h4 hp]
    have hle : pymin (99 / 100 : ℚ) (p / 100) ≤ 99 / 100 := by
      rw [pymin_eq_min]
      exact min_le_left _ _
    exact ⟨rfl, lt_of_le_of_lt hle (by norm_num)⟩
  · unfold jobReportedFractions
    rw [List.getLast?_concat]

/-- Witness for C5: a frame line at `50` of `100`, a percent line `" 42%"`,
and the forced trailing `1.0`. -/
theorem capped_fractions_and_final_one_witness :
    (processLine ⟨none, 0, some 100, 0⟩ (strChars "Rendering frame 50")).2
        = some (pymin (99 / 100 : ℚ) ((50 : ℚ) / (100 : ℚ))) ∧
    (processLine initLoopState (strChars " 42%")).2
        = some (pymin (99 / 100 : ℚ) ((42 : ℚ) / 100)) ∧
    (jobReportedFractions [strChars " 42%"]).getLast? = some 1 := by
  refine ⟨?_, ?_, ?_⟩
  · exact ((capped_fractions_and_final_one ⟨none, 0, some 100, 0⟩
      (strChars "Rendering frame 50") []).1 50 100
      (by decide) (by decide) (by decide) (by decide) rfl (by decide) (by decide)).1
  · exact ((capped_fractions_and_final_one initLoopState (strChars " 42%") []).2.1 42
      (by decide) (by decide) (by decide) (by decide) (by decide) (by decide)).1
  · exact (capped_fractions_and_final_one initLoopState [] [strChars " 42%"]).2.2

/-! ## Artifact Resolver, Fallback Converter and Workspace Lifecycle
(`generate_manim_video` lines 583-760, `mp4_to_gif` lines 361-384)

The filesystem and subprocess layer are an explicit record of pure
oracles, so the post-`wait()` phase is a pure function of its inputs and
the environment.  The values `output_file_path`, `mp4_output_path` and the
joined transcript `full_output` are produced by the drain loop (and its
`"File ready at"` accumulator, lines 546-574); the claims below take them
as inputs. -/

abbrev Bytes := List Nat

/-- The filesystem / subprocess oracles a run consults.  `walkFiles d` and
`walkSubdirs d` list the `(dirpath, name)` pairs `os.walk(d)` yields, in
walk order; a directory that does not exist yields `[]`, as `os.walk`
silently does.  `ffmpegOk argv` is whether the FFmpeg subprocess with that
argument vector exits with code `0`.  `mkdtempPath` is the fresh directory
`tempfile.mkdtemp(prefix="manim_render_")` returns (app.py 398). -/
structure Env where
  exists_ : String → Bool
  getsize : String → Nat
  readFile : String → Bytes
  getctime : String → Nat
  walkFiles : String → List (String × String)
  walkSubdirs : String → List (String × String)
  listdir : String → List String
  ffmpegOk : List String → Bool
  cwd : String
  mkdtempPath : String

/-- Python truthiness of an optional string (`None` and `""` are falsy). -/
def optTruthyStr : Option String → Bool
  | none => false
  | some s => !s.isEmpty

/-- Model of `os.path.join` for the POSIX paths the source builds. -/
def pjoin (a b : String) : String := a ++ "/" ++ b

def pjoinList (root : String) (parts : List String) : String := parts.foldl pjoin root

def endsWithStr (suffix s : String) : Bool := suffix.data.isSuffixOf s.data

/-- Python `max(x :: xs, key)`: the first element attaining the maximal
key — the running maximum is replaced only on strictly greater keys. -/
def pyMaxNe (key : String → Nat) (x : String) (xs : List String) : String :=
  xs.foldl (fun acc y => if key y > key acc then y else acc) x

/-- Model of `fps if fps else 15` at the `mp4_to_gif` call sites
(app.py 589, 684, 723): `None` and `0` are falsy. -/
def gifFps : Option Nat → Nat
  | none => 15
  | some n => if n != 0 then n else 15

/-- The argument vector `mp4_to_gif` passes to FFmpeg (app.py 365-371):
input file, a filter graph with the target frame rate, a fixed 640-wide
lanczos rescale and a two-pass palettegen/paletteuse split, the loop flag
`-loop 0` (loop forever), and the output path. -/
def ffmpegCommand (mp4_path output_path : String) (fps : Nat) : List String :=
  ["ffmpeg", "-i", mp4_path,
   "-vf", "fps=" ++ toString fps ++
     ",scale=640:-1:flags=lanczos,split[s0][s1];[s0]palettegen[p];[s1][p]paletteuse",
   "-loop", "0", output_path]

/-- Model of `mp4_to_gif` (app.py 361-384): run FFmpeg; on exit code `0` return the
output path, else log and return `None`. -/
def mp4_to_gif (env : Env) (mp4_path output_path : String) (fps : Nat) : Option String :=
  if env.ffmpegOk (ffmpegCommand mp4_path output_path fps) then some output_path else none

/-- PNG-sequence candidate roots (app.py 599-603). -/
def pngSearchDirs (env : Env) (tempDir sceneClass : String) : List String :=
  [pjoinList env.cwd ["media", "images", sceneClass, "Animations"],
   pjoinList tempDir ["media", "images", sceneClass, "Animations"],
   "/tmp/media/images"]

/-- The directories collected at app.py 605-610: walk each existing root,
collect every subdirectory that exists. -/
def pngDirs (env : Env) (tempDir sceneClass : String) : List String :=
  ((pngSearchDirs env tempDir sceneClass).filter env.exists_).flatMap
    (fun d => ((env.walkSubdirs d).map (fun rd => pjoin rd.1 rd.2)).filter env.exists_)

/-- Model of the comprehension at app.py 617, keeping the `.png` entries of
`os.listdir`. -/
def pngFilesIn (env : Env) (dir : String) : List String :=
  (env.listdir dir).filter (fun f => endsWithStr ".png" f)

/-- The ordered candidate list of app.py 641-660: six base roots, ten
quality-tagged subpaths, and two design roots for SVG. -/
def videoSearchPaths (env : Env) (fmt tempDir sceneClass : String) : List String :=
  ([pjoinList env.cwd ["media", "videos"],
    pjoinList env.cwd ["media", "videos", "scene"],
    pjoinList env.cwd ["media", "videos", sceneClass],
    "/tmp/media/videos",
    tempDir,
    pjoinList tempDir ["media", "videos"]]
  ++ (["480p30", "720p30", "1080p60", "2160p60", "4320p60"].flatMap
      (fun q => [pjoinList env.cwd ["media", "videos", "scene", q],
                 pjoinList env.cwd ["media", "videos", sceneClass, q]]))
  ++ (if fmt == "svg" then
        [pjoinList env.cwd ["media", "designs"],
         pjoinList env.cwd ["media", "designs", sceneClass]]
      else []))

/-- The files collected at app.py 663-672: walk each existing candidate
root in order; keep files whose name ends in `.<fmt>` and does not contain
`"partial"`, re-checking existence of the joined path. -/
def searchOutputFiles (env : Env) (fmt tempDir sceneClass : String) : List String :=
  ((videoSearchPaths env fmt tempDir sceneClass).filter env.exists_).flatMap
    (fun sp => (env.walkFiles sp).filterMap (fun rf =>
      if endsWithStr ("." ++ fmt) rf.2 && !hasSubstr (strChars "partial") (strChars rf.2)
          && env.exists_ (pjoin rf.1 rf.2)
      then some (pjoin rf.1 rf.2) else none))

/-- The aggressive MP4 hunt of app.py 708-715: walk the current directory,
the job directory and `/tmp`; keep `.mp4` files whose lowercased name
contains the lowercased scene-class name, existing and of positive size. -/
def aggressiveMp4Files (env : Env) (tempDir sceneClass : String) : List String :=
  [env.cwd, tempDir, "/tmp"].flatMap (fun sp =>
    (env.walkFiles sp).filterMap (fun rf =>
      if endsWithStr ".mp4" rf.2
          && hasSubstr (strChars sceneClass.toLower) (strChars rf.2.toLower)
          && env.exists_ (pjoin rf.1 rf.2)
          && decide (0 < env.getsize (pjoin rf.1 rf.2))
      then some (pjoin rf.1 rf.2) else none))

/-- Which branch of the resolution phase produced (or failed to produce)
the artifact — an observation tag on the embedded control flow. -/
inductive ResolveStep where
  | selfReported
  | dirSearch
  | pngSequence
  | fallbackGif
  | unresolved
deriving Repr, DecidableEq

/-- Outcome of the post-`wait()` try-body (app.py 583-737):
the final value of the `video_data` variable, the pair the body returns,
the exception escaping the body (if any), the FFmpeg invocations made
(argument vectors, in order), and the branch tag. -/
structure ResolveResult where
  videoDataVar : Option Bytes
  returned : Option Bytes × String
  raisedMsg : Option String
  ffmpegCalls : List (List String)
  step : ResolveStep
deriving Repr, DecidableEq

/-- Text of the NameError message raised at app.py 621; Python renders it with
quote characters around the unbound name, elided here. -/
def zipfileNameError : String := "name zipfile is not defined"

/-- The status of app.py 737 (the source's own spelling, with the first
500 characters of the joined transcript — `output_str[:500]` —
interpolated; the slice is taken on the character list, which is what
Python string slicing does). -/
def errNoOutput (outputStr : String) : String :=
  "❌ Error: No output files were generated.\n\nMakim output:\n"
    ++ String.mk (outputStr.data.take 500) ++ "..."

/-- The status of app.py 700.  The source appends the artifact size as
`  (X.X MB)` computed from the byte length; elided, as no claim depends
on the size text. -/
def successMsg : String := "✅ Animation generated successfully!"

/-- The status of app.py 735, size suffix elided likewise. -/
def gifConvertedMsg : String := "✅ Animation converted to GIF successfully!"

/-- app.py 701-737: the no-usable-output tail.  For
`format_type == "gif"` the aggressive MP4 hunt and a final conversion
attempt run (706-735) — on conversion success the bytes are read and the
GIF-specific success status returned — otherwise (and on conversion
failure) the generic no-output status of line 737 is returned, leaving
the `video_data` variable as it was. -/
def noOutputTail (env : Env) (fmt : String) (fps : Option Nat)
    (fullOutput tempDir sceneClass : String)
    (videoData : Option Bytes) (calls : List (List String)) (step : ResolveStep) :
    ResolveResult :=
  let gifOut := pjoin tempDir (sceneClass ++ "_converted.gif")
  if fmt == "gif" then
    match aggressiveMp4Files env tempDir sceneClass with
    | [] =>
      { videoDataVar := videoData, returned := (none, errNoOutput fullOutput),
        raisedMsg := none, ffmpegCalls := calls, step := step }
    | f :: fs =>
      let newest := pyMaxNe env.getctime f fs
      let call := ffmpegCommand newest gifOut (gifFps fps)
      match mp4_to_gif env newest gifOut (gifFps fps) with
      | some g =>
        if env.exists_ g then
          { videoDataVar := some (env.readFile g),
            returned := (some (env.readFile g), gifConvertedMsg),
            raisedMsg := none, ffmpegCalls := calls ++ [call],
            step := ResolveStep.fallbackGif }
        else
          { videoDataVar := videoData, returned := (none, errNoOutput fullOutput),
            raisedMsg := none, ffmpegCalls := calls ++ [call], step := step }
      | none =>
        { videoDataVar := videoData, returned := (none, errNoOutput fullOutput),
          raisedMsg := none, ffmpegCalls := calls ++ [call], step := step }
  else
    { videoDataVar := videoData, returned := (none, errNoOutput fullOutput),
      raisedMsg := none, ffmpegCalls := calls, step := step }

/-- app.py 692-737: the common tail after resolution.  `if video_data:`
(line 692) is a truthiness test — `b""` is falsy — while the `finally`
block later tests `video_data is not None`, so the two are distinguished
here. -/
def finishTail (env : Env) (fmt : String) (fps : Option Nat)
    (fullOutput tempDir sceneClass : String)
    (videoData : Option Bytes) (calls : List (List String)) (step : ResolveStep) :
    ResolveResult :=
  match videoData with
  | some b =>
    if !b.isEmpty then
      { videoDataVar := some b, returned := (some b, successMsg),
        raisedMsg := none, ffmpegCalls := calls, step := step }
    else noOutputTail env fmt fps fullOutput tempDir sceneClass (some b) calls step
  | none => noOutputTail env fmt fps fullOutput tempDir sceneClass none calls step

/-- app.py 584: `format_type == "gif" and (not output_file_path or not
os.path.exists(output_file_path)) and mp4_output_path and
os.path.exists(mp4_output_path)`. -/
def earlyGifCond (env : Env) (fmt : String) (ofp mp4p : Option String) : Bool :=
  fmt == "gif"
    && !(optTruthyStr ofp && env.exists_ (ofp.getD ""))
    && optTruthyStr mp4p && env.exists_ (mp4p.getD "")

/-- The FFmpeg invocation the early GIF fallback makes, if it triggers. -/
def earlyGifCalls (env : Env) (fmt : String) (fps : Option Nat)
    (ofp mp4p : Option String) (tempDir sceneClass : String) : List (List String) :=
  if earlyGifCond env fmt ofp mp4p then
    [ffmpegCommand (mp4p.getD "") (pjoin tempDir (sceneClass ++ "_converted.gif"))
      (gifFps fps)]
  else []

/-- Value of `output_file_path` after the early GIF fallback (app.py 584-593): on
conversion success with the output file present it is redirected to the
converted GIF, otherwise left as parsed from the log. -/
def pathAfterEarlyGif (env : Env) (fmt : String) (fps : Option Nat)
    (ofp mp4p : Option String) (tempDir sceneClass : String) : Option String :=
  if earlyGifCond env fmt ofp mp4p then
    match mp4_to_gif env (mp4p.getD "")
        (pjoin tempDir (sceneClass ++ "_converted.gif")) (gifFps fps) with
    | some g => if env.exists_ g then some g else ofp
    | none => ofp
  else ofp

/-- app.py 583-737: the whole post-`wait()` try-body.
Step order, short-circuiting exactly as the source's `if`/`elif` chain:
the early GIF fallback (584-593, which may overwrite `output_file_path`),
then the PNG-sequence branch (596-633, whose archiving step raises
`NameError` because `zipfile` is referenced at line 621 but never imported
in app.py lines 1-25), then the self-reported-path branch (634-638, an
existence test only — no size check), then the ordered directory search
(640-689, including the `latest_file.endswith('.mp4')` sub-branch), and
finally the common tail. -/
def resolvePhase (env : Env) (fmt : String) (fps : Option Nat)
    (outputFilePath0 mp4OutputPath : Option String)
    (fullOutput tempDir sceneClass : String) : ResolveResult :=
  let gifOut := pjoin tempDir (sceneClass ++ "_converted.gif")
  let earlyCalls := earlyGifCalls env fmt fps outputFilePath0 mp4OutputPath tempDir sceneClass
  let outputFilePath :=
    pathAfterEarlyGif env fmt fps outputFilePath0 mp4OutputPath tempDir sceneClass
  if fmt == "png_sequence" then
    match pngDirs env tempDir sceneClass with
    | [] => finishTail env fmt fps fullOutput tempDir sceneClass none earlyCalls
        ResolveStep.pngSequence
    | d :: ds =>
      let newest := pyMaxNe env.getctime d ds
      if !(pngFilesIn env newest).isEmpty then
        -- app.py 619-621: `zip_path` is assigned, then `zipfile.ZipFile`
        -- raises `NameError` (unimported name), escaping to line 739.
        { videoDataVar := none, returned := (none, ""),
          raisedMsg := some zipfileNameError, ffmpegCalls := earlyCalls,
          step := ResolveStep.pngSequence }
      else finishTail env fmt fps fullOutput tempDir sceneClass none earlyCalls
        ResolveStep.pngSequence
  else if optTruthyStr outputFilePath && env.exists_ (outputFilePath.getD "") then
    finishTail env fmt fps fullOutput tempDir sceneClass
      (some (env.readFile (outputFilePath.getD ""))) earlyCalls ResolveStep.selfReported
  else
    match searchOutputFiles env fmt tempDir sceneClass with
    | [] => finishTail env fmt fps fullOutput tempDir sceneClass none earlyCalls
        ResolveStep.unresolved
    | f :: fs =>
      let latest := pyMaxNe env.getctime f fs
      let bytes := env.readFile latest
      if fmt == "gif" && endsWithStr ".mp4" latest then
        let call := ffmpegCommand latest gifOut (gifFps fps)
        match mp4_to_gif env latest gifOut (gifFps fps) with
        | some g =>
          if env.exists_ g then
            finishTail env fmt fps fullOutput tempDir sceneClass
              (some (env.readFile g)) (earlyCalls ++ [call]) ResolveStep.dirSearch
          else
            finishTail env fmt fps fullOutput tempDir sceneClass
              (some bytes) (earlyCalls ++ [call]) ResolveStep.dirSearch
        | none =>
          finishTail env fmt fps fullOutput tempDir sceneClass
            (some bytes) (earlyCalls ++ [call]) ResolveStep.dirSearch
      else
        finishTail env fmt fps fullOutput tempDir sceneClass
          (some bytes) earlyCalls ResolveStep.dirSearch

/-- Caller-observable outcome of one `generate_manim_video` call. -/
structure GenResult where
  returned : Option Bytes × String
  videoDataVar : Option Bytes
  removedTempDir : Bool
  ffmpegCalls : List (List String)
  raisedMsg : Option String
  step : ResolveStep
deriving Repr, DecidableEq

/-- Model of `generate_manim_video` (app.py 386-760), from `process.wait()` onward,
as a pure function of the inputs and the environment.  `outputFilePath`,
`mp4OutputPath` and `fullOutput` are the values the drain loop produced.
The `except` handler (739-751) converts an escaped exception `e` into the
return `(None, "❌ Error: " + str(e))`.  The `finally` block (753-760)
attempts `shutil.rmtree(temp_dir)` only when `temp_dir` is set, still
exists, and `video_data is not None` — `removedTempDir` records whether
that removal is attempted (its own failure would only be logged).  The
empty-parameter `ValueError` of line 395 fires before `mkdtemp`, so no
directory exists to remove on that path. -/
def generate_manim_video (env : Env) (pythonCode formatType : String) (fps : Option Nat)
    (outputFilePath mp4OutputPath : Option String) (fullOutput : String) : GenResult :=
  if pythonCode.isEmpty || formatType.isEmpty then
    { returned := (none, "❌ Error: Missing required parameters"),
      videoDataVar := none, removedTempDir := false, ffmpegCalls := [],
      raisedMsg := some "Missing required parameters", step := ResolveStep.unresolved }
  else
    let tempDir := env.mkdtempPath
    let sceneClass := extract_scene_class_name pythonCode
    let r := resolvePhase env formatType fps outputFilePath mp4OutputPath fullOutput
      tempDir sceneClass
    { returned :=
        match r.raisedMsg with
        | some m => (none, "❌ Error: " ++ m)
        | none => r.returned,
      videoDataVar := r.videoDataVar,
      removedTempDir := env.exists_ tempDir && r.videoDataVar.isSome,
      ffmpegCalls := r.ffmpegCalls, raisedMsg := r.raisedMsg, step := r.step }

/-! Characterization of Python `max(..., key)` as used by the resolver:
the selected element is the *first* element attaining the maximal key, so
selection is a function of the list (and key) alone. -/

theorem pyMaxNe_first_max (key : String → Nat) (x : String) (xs : List String) :
    ∃ l1 l2, x :: xs = l1 ++ pyMaxNe key x xs :: l2 ∧
      (∀ y ∈ l1, key y < key (pyMaxNe key x xs)) ∧
      (∀ y ∈ x :: xs, key y ≤ key (pyMaxNe key x xs)) := by
  induction xs generalizing x with
  | nil =>
    refine ⟨[], [], rfl, by simp, ?_⟩
    intro y hy
    simp only [List.mem_singleton] at hy
    subst hy
    exact le_rfl
  | cons y ys ih =>
    have hstep : pyMaxNe key x (y :: ys)
        = pyMaxNe key (if key y > key x then y else x) ys := rfl
    by_cases hxy : key y > key x
    · obtain ⟨l1, l2, hdec, hlt, hle⟩ := ih y
      have hres : pyMaxNe key x (y :: ys) = pyMaxNe key y ys := by
        rw [hstep, if_pos hxy]
      refine ⟨x :: l1, l2, ?_, ?_, ?_⟩
      · rw [hres]
        exact congrArg (x :: ·) hdec
      · intro z hz
        rw [hres]
        rcases List.mem_cons.mp hz with hz | hz
        · subst hz
          exact lt_of_lt_of_le hxy (hle y (List.mem_cons_self _ _))
        · exact hlt z hz
      · intro z hz
        rw [hres]
        rcases List.mem_cons.mp hz with hz | hz
        · subst hz
          exact le_of_lt (lt_of_lt_of_le hxy (hle y (List.mem_cons_self _ _)))
        · exact hle z hz
    · obtain ⟨l1, l2, hdec, hlt, hle⟩ := ih x
      have hres : pyMaxNe key x (y :: ys) = pyMaxNe key x ys := by
        rw [hstep, if_neg hxy]
      have hyx : key y ≤ key x := le_of_not_lt hxy
      cases l1 with
      | nil =>
        simp only [List.nil_append, List.cons.injEq] at hdec
        refine ⟨[], y :: l2, ?_, by simp, ?_⟩
        · rw [hres, ← hdec.1]
          exact congrArg (fun t => x :: y :: t) hdec.2
        · intro z hz
          rw [hres]
          rcases List.mem_cons.mp hz with hz | hz
          · subst hz
            exact hle _ (List.mem_cons_self _ _)
          · rcases List.mem_cons.mp hz with hz | hz
            · subst hz
              exact le_trans hyx (hle _ (List.mem_cons_self _ _))
            · exact hle z (List.mem_cons_of_mem _ hz)
      | cons a l1t =>
        simp only [List.cons_append, List.cons.injEq] at hdec
        have hxa : key x = key a := congrArg key hdec.1
        have hxlt : key x < key (pyMaxNe key x ys) := by
          rw [hxa]
          exact hlt a (List.mem_cons_self _ _)
        refine ⟨x :: y :: l1t, l2, ?_, ?_, ?_⟩
        · rw [hres]
          exact congrArg (fun t => x :: y :: t) hdec.2
        · intro z hz
          rw [hres]
          rcases List.mem_cons.mp hz with hz | hz
          · subst hz
            exact hxlt
          · rcases List.mem_cons.mp hz with hz | hz
            · subst hz
              exact lt_of_le_of_lt hyx hxlt
            · exact hlt z (List.mem_cons_of_mem _ hz)
        · intro z hz
          rw [hres]
          rcases List.mem_cons.mp hz with hz | hz
          · subst hz
            exact hle _ (List.mem_cons_self _ _)
          · rcases List.mem_cons.mp hz with hz | hz
            · subst hz
              exact le_trans hyx (hle _ (List.mem_cons_self _ _))
            · exact hle z (List.mem_cons_of_mem _ hz)

theorem pyMaxNe_mem (key : String → Nat) (x : String) (xs : List String) :
    pyMaxNe key x xs ∈ x :: xs := by
  obtain ⟨l1, l2, hdec, -, -⟩ := pyMaxNe_first_max key x xs
  rw [hdec]
  exact List.mem_append_right l1 (List.mem_cons_self _ _)

/-- The selection made by the ordered directory search (app.py 674-676):
`max(output_files, key=os.path.getctime)` over the collected candidates,
`None` when there are none. -/
def dirSearchSelection (env : Env) (fmt tempDir sceneClass : String) : Option String :=
  match searchOutputFiles env fmt tempDir sceneClass with
  | [] => none
  | f :: fs => some (pyMaxNe env.getctime f fs)

/-- C9 — artifact-resolution tie-breaking is deterministic.  (1) The
selection depends only on the snapshot: two environments that agree on the
filesystem oracles the search consults (`exists_`, `walkFiles`,
`getctime`, `cwd`) select the same file, so repeated runs over a fixed
snapshot always pick the same one.  (2) The selection is pinned: it is the
*first* candidate, in the search's walk order, attaining the maximal
creation time — in particular any other candidate with the identical
(maximal) timestamp lies strictly after the selected one, on every run
(`max` replaces its running best only on a strictly greater key). -/
theorem dirSearch_tie_break_deterministic (env1 env2 : Env)
    (fmt tempDir sceneClass : String)
    (he : env1.exists_ = env2.exists_) (hw : env1.walkFiles = env2.walkFiles)
    (hc : env1.getctime = env2.getctime) (hcwd : env1.cwd = env2.cwd) :
    dirSearchSelection env1 fmt tempDir sceneClass
      = dirSearchSelection env2 fmt tempDir sceneClass
    ∧ (∀ f fs, searchOutputFiles env1 fmt tempDir sceneClass = f :: fs →
      ∃ sel l1 l2, dirSearchSelection env1 fmt tempDir sceneClass = some sel ∧
        f :: fs = l1 ++ sel :: l2 ∧
        (∀ y ∈ l1, env1.getctime y < env1.getctime sel) ∧
        (∀ y ∈ f :: fs, env1.getctime y ≤ env1.getctime sel) ∧
        (∀ y ∈ f :: fs, env1.getctime y = env1.getctime sel → y ≠ sel → y ∈ l2)) := by
  constructor
  · unfold dirSearchSelection searchOutputFiles videoSearchPaths
    rw [he, hw, hc, hcwd]
  · intro f fs hsearch
    obtain ⟨l1, l2, hdec, hlt, hle⟩ := pyMaxNe_first_max env1.getctime f fs
    refine ⟨pyMaxNe env1.getctime f fs, l1, l2, ?_, hdec, hlt, hle, ?_⟩
    · unfold dirSearchSelection
      rw [hsearch]
    · intro y hy heq hne
      rw [hdec] at hy
      rcases List.mem_append.mp hy with h1 | h2
      · exact absurd heq (ne_of_lt (hlt y h1))
      · rcases List.mem_cons.mp h2 with h2 | h2
        · exact absurd h2 hne
        · exact h2

/-- A snapshot with two `.mp4` candidates in the same directory carrying
identical creation timestamps. -/
def envC9 : Env :=
  { exists_ := fun p => p == "/app/media/videos" || p == "/app/media/videos/a.mp4"
      || p == "/app/media/videos/b.mp4",
    getsize := fun _ => 5, readFile := fun _ => [1], getctime := fun _ => 7,
    walkFiles := fun d => if d == "/app/media/videos"
      then [("/app/media/videos", "a.mp4"), ("/app/media/videos", "b.mp4")] else [],
    walkSubdirs := fun _ => [], listdir := fun _ => [], ffmpegOk := fun _ => false,
    cwd := "/app", mkdtempPath := "/tmp/manim_render_job" }

/-- Witness for C9: over `envC9` — whose two candidates tie at creation
time `7` — repeated runs agree, and the decomposition pins the selection
with every equal-timestamp rival strictly after it. -/
theorem dirSearch_tie_break_deterministic_witness :
    dirSearchSelection envC9 "mp4" "/tmp/manim_render_job" "Scene"
      = dirSearchSelection envC9 "mp4" "/tmp/manim_render_job" "Scene" ∧
    (∃ sel l1 l2, dirSearchSelection envC9 "mp4" "/tmp/manim_render_job" "Scene"
        = some sel ∧
      ["/app/media/videos/a.mp4", "/app/media/videos/b.mp4"] = l1 ++ sel :: l2 ∧
      (∀ y ∈ l1, envC9.getctime y < envC9.getctime sel) ∧
      (∀ y ∈ ["/app/media/videos/a.mp4", "/app/media/videos/b.mp4"],
        envC9.getctime y ≤ envC9.getctime sel) ∧
      (∀ y ∈ ["/app/media/videos/a.mp4", "/app/media/videos/b.mp4"],
        envC9.getctime y = envC9.getctime sel → y ≠ sel → y ∈ l2)) := by
  have h := dirSearch_tie_break_deterministic envC9 envC9 "mp4" "/tmp/manim_render_job"
    "Scene" rfl rfl rfl rfl
  exact ⟨h.1, h.2 "/app/media/videos/a.mp4" ["/app/media/videos/b.mp4"] (by decide)⟩

/-! Structural lemmas about the FFmpeg invocations and returned bytes of
the resolution phase. -/

/-- Every FFmpeg call the no-output tail adds (beyond those already made)
targets the fixed converted-GIF output path with the `fps if fps else 15`
frame rate. -/
theorem noOutputTail_calls_decomp (env : Env) (fmt : String) (fps : Option Nat)
    (out tempDir sceneClass : String) (vd : Option Bytes)
    (calls : List (List String)) (step : ResolveStep) :
    ∃ extra,
      (noOutputTail env fmt fps out tempDir sceneClass vd calls step).ffmpegCalls
        = calls ++ extra ∧
      ∀ c ∈ extra, ∃ src,
        c = ffmpegCommand src (pjoin tempDir (sceneClass ++ "_converted.gif"))
          (gifFps fps) := by
  unfold noOutputTail
  dsimp only
  split
  · split
    · exact ⟨[], by simp, by simp⟩
    · split
      · split
        · refine ⟨[ffmpegCommand _ (pjoin tempDir (sceneClass ++ "_converted.gif"))
            (gifFps fps)], rfl, ?_⟩
          intro c hc
          rw [List.mem_singleton] at hc
          exact ⟨_, hc⟩
        · refine ⟨[ffmpegCommand _ (pjoin tempDir (sceneClass ++ "_converted.gif"))
            (gifFps fps)], rfl, ?_⟩
          intro c hc
          rw [List.mem_singleton] at hc
          exact ⟨_, hc⟩
      · refine ⟨[ffmpegCommand _ (pjoin tempDir (sceneClass ++ "_converted.gif"))
          (gifFps fps)], rfl, ?_⟩
        intro c hc
        rw [List.mem_singleton] at hc
        exact ⟨_, hc⟩
  · exact ⟨[], by simp, by simp⟩

theorem finishTail_calls_decomp (env : Env) (fmt : String) (fps : Option Nat)
    (out tempDir sceneClass : String) (vd : Option Bytes)
    (calls : List (List String)) (step : ResolveStep) :
    ∃ extra,
      (finishTail env fmt fps out tempDir sceneClass vd calls step).ffmpegCalls
        = calls ++ extra ∧
      ∀ c ∈ extra, ∃ src,
        c = ffmpegCommand src (pjoin tempDir (sceneClass ++ "_converted.gif"))
          (gifFps fps) := by
  unfold finishTail
  match vd with
  | none => exact noOutputTail_calls_decomp env fmt fps out tempDir sceneClass none calls step
  | some b =>
    dsimp only
    split
    · exact ⟨[], by simp, by simp⟩
    · exact noOutputTail_calls_decomp env fmt fps out tempDir sceneClass (some b) calls step

/-- Variant of `finishTail_calls_decomp` for a call list that already ends
in one canonical-shape invocation. -/
theorem finishTail_calls_cons (env : Env) (fmt : String) (fps : Option Nat)
    (out tempDir sceneClass : String) (vd : Option Bytes)
    (base : List (List String)) (c0 : List String) (step : ResolveStep)
    (hc0 : ∃ src, c0 = ffmpegCommand src
      (pjoin tempDir (sceneClass ++ "_converted.gif")) (gifFps fps)) :
    ∃ extra,
      (finishTail env fmt fps out tempDir sceneClass vd (base ++ [c0]) step).ffmpegCalls
        = base ++ extra ∧
      ∀ c ∈ extra, ∃ src,
        c = ffmpegCommand src (pjoin tempDir (sceneClass ++ "_converted.gif"))
          (gifFps fps) := by
  obtain ⟨extra, h1, h2⟩ :=
    finishTail_calls_decomp env fmt fps out tempDir sceneClass vd (base ++ [c0]) step
  refine ⟨[c0] ++ extra, by rw [h1, List.append_assoc], ?_⟩
  intro c hc
  rcases List.mem_append.mp hc with hc | hc
  · rw [List.mem_singleton] at hc
    subst hc
    exact hc0
  · exact h2 c hc

/-- Every FFmpeg call a resolution run makes is of the canonical fallback
shape: some source file, the fixed `<scene>_converted.gif` output inside
the job directory, and the `fps if fps else 15` frame rate. -/
theorem resolvePhase_calls_decomp (env : Env) (fmt : String) (fps : Option Nat)
    (ofp mp4p : Option String) (out tempDir sceneClass : String) :
    ∃ extra,
      (resolvePhase env fmt fps ofp mp4p out tempDir sceneClass).ffmpegCalls
        = earlyGifCalls env fmt fps ofp mp4p tempDir sceneClass ++ extra ∧
      ∀ c ∈ extra, ∃ src,
        c = ffmpegCommand src (pjoin tempDir (sceneClass ++ "_converted.gif"))
          (gifFps fps) := by
  unfold resolvePhase
  dsimp only
  split
  · -- png_sequence branch
    split
    · exact finishTail_calls_decomp env fmt fps out tempDir sceneClass none _ _
    · split
      · exact ⟨[], by simp, by simp⟩
      · exact finishTail_calls_decomp env fmt fps out tempDir sceneClass none _ _
  · split
    · -- self-reported branch
      exact finishTail_calls_decomp env fmt fps out tempDir sceneClass _ _ _
    · -- directory search branch
      split
      · exact finishTail_calls_decomp env fmt fps out tempDir sceneClass none _ _
      · split
        · -- gif/mp4 sub-branch: one extra call is recorded before the tail
          split
          · split
            · exact finishTail_calls_cons env fmt fps out tempDir sceneClass _ _ _ _
                ⟨_, rfl⟩
            · exact finishTail_calls_cons env fmt fps out tempDir sceneClass _ _ _ _
                ⟨_, rfl⟩
          · exact finishTail_calls_cons env fmt fps out tempDir sceneClass _ _ _ _
              ⟨_, rfl⟩
        · exact finishTail_calls_decomp env fmt fps out tempDir sceneClass _ _ _

/-- Whenever the no-output tail returns artifact bytes, those bytes are the
value left in the `video_data` variable. -/
theorem noOutputTail_returned_bytes (env : Env) (fmt : String) (fps : Option Nat)
    (out tempDir sceneClass : String) (vd : Option Bytes)
    (calls : List (List String)) (step : ResolveStep) (b : Bytes) (msg : String) :
    (noOutputTail env fmt fps out tempDir sceneClass vd calls step).returned
        = (some b, msg) →
    (noOutputTail env fmt fps out tempDir sceneClass vd calls step).videoDataVar
        = some b := by
  unfold noOutputTail
  dsimp only
  split
  · split
    · intro h
      simp [Prod.mk.injEq] at h
    · split
      · split
        · intro h
          rw [Prod.mk.injEq] at h
          exact h.1
        · intro h
          simp [Prod.mk.injEq] at h
      · intro h
        simp [Prod.mk.injEq] at h
  · intro h
    simp [Prod.mk.injEq] at h

theorem finishTail_returned_bytes (env : Env) (fmt : String) (fps : Option Nat)
    (out tempDir sceneClass : String) (vd : Option Bytes)
    (calls : List (List String)) (step : ResolveStep) (b : Bytes) (msg : String) :
    (finishTail env fmt fps out tempDir sceneClass vd calls step).returned
        = (some b, msg) →
    (finishTail env fmt fps out tempDir sceneClass vd calls step).videoDataVar
        = some b := by
  unfold finishTail
  match vd with
  | none =>
    exact noOutputTail_returned_bytes env fmt fps out tempDir sceneClass none calls step b msg
  | some b0 =>
    dsimp only
    split
    · intro h
      rw [Prod.mk.injEq] at h
      exact h.1
    · exact noOutputTail_returned_bytes env fmt fps out tempDir sceneClass (some b0)
        calls step b msg

/-- Whenever the resolution phase's try-body returns artifact bytes, those
bytes are the value left in the `video_data` variable — the bytes are in
memory before control ever reaches the `finally` block. -/
theorem resolvePhase_returned_bytes (env : Env) (fmt : String) (fps : Option Nat)
    (ofp mp4p : Option String) (out tempDir sceneClass : String) (b : Bytes)
    (msg : String) :
    (resolvePhase env fmt fps ofp mp4p out tempDir sceneClass).returned = (some b, msg) →
    (resolvePhase env fmt fps ofp mp4p out tempDir sceneClass).videoDataVar = some b := by
  unfold resolvePhase
  dsimp only
  split
  · split
    · exact finishTail_returned_bytes env fmt fps out tempDir sceneClass none _ _ b msg
    · split
      · intro h
        simp [Prod.mk.injEq] at h
      · exact finishTail_returned_bytes env fmt fps out tempDir sceneClass none _ _ b msg
  · split
    · exact finishTail_returned_bytes env fmt fps out tempDir sceneClass _ _ _ b msg
    · split
      · exact finishTail_returned_bytes env fmt fps out tempDir sceneClass none _ _ b msg
      · split
        · split
          · split
            · exact finishTail_returned_bytes env fmt fps out tempDir sceneClass _ _ _ b msg
            · exact finishTail_returned_bytes env fmt fps out tempDir sceneClass _ _ _ b msg
          · exact finishTail_returned_bytes env fmt fps out tempDir sceneClass _ _ _ b msg
        · exact finishTail_returned_bytes env fmt fps out tempDir sceneClass _ _ _ b msg

/-- Fields of `finishTail` on captured bytes when the format is not the
animated-image format: the variable keeps the bytes, and no conversion or
step change happens. -/
theorem finishTail_some_not_gif (env : Env) (fmt : String) (fps : Option Nat)
    (out tempDir sceneClass : String) (b : Bytes) (calls : List (List String))
    (step : ResolveStep) (hgif : (fmt == "gif") = false) :
    (finishTail env fmt fps out tempDir sceneClass (some b) calls step).videoDataVar
        = some b ∧
    (finishTail env fmt fps out tempDir sceneClass (some b) calls step).step = step ∧
    (finishTail env fmt fps out tempDir sceneClass (some b) calls step).ffmpegCalls
        = calls := by
  unfold finishTail noOutputTail
  simp only [hgif]
  split <;> simp

/-- Fields of `finishTail` with no captured bytes when the format is not
the animated-image format. -/
theorem finishTail_none_not_gif (env : Env) (fmt : String) (fps : Option Nat)
    (out tempDir sceneClass : String) (calls : List (List String))
    (step : ResolveStep) (hgif : (fmt == "gif") = false) :
    (finishTail env fmt fps out tempDir sceneClass none calls step).videoDataVar
        = none ∧
    (finishTail env fmt fps out tempDir sceneClass none calls step).step = step ∧
    (finishTail env fmt fps out tempDir sceneClass none calls step).returned
        = (none, errNoOutput out) := by
  unfold finishTail noOutputTail
  simp only [hgif]
  simp

/-- A snapshot in which the self-reported output path exists but is empty
(size `0`, reads as `b""`), while the directory search would have found a
non-empty candidate. -/
def envC6 : Env :=
  { exists_ := fun p => p == "/out/video.mp4" || p == "/app/media/videos"
      || p == "/app/media/videos/good.mp4",
    getsize := fun p => if p == "/out/video.mp4" then 0 else 9,
    readFile := fun p => if p == "/out/video.mp4" then [] else [1, 2, 3],
    getctime := fun _ => 3,
    walkFiles := fun d => if d == "/app/media/videos"
      then [("/app/media/videos", "good.mp4")] else [],
    walkSubdirs := fun _ => [], listdir := fun _ => [], ffmpegOk := fun _ => false,
    cwd := "/app", mkdtempPath := "/tmp/manim_render_c6" }

/-- A non-empty Python string is truthy. -/
theorem isEmpty_false_of_ne (s : String) (h : s ≠ "") : s.isEmpty = false := by
  cases hE : s.isEmpty
  · rfl
  · exact absurd ((String.isEmpty_iff s).mp hE) h

/-- C6 (counterexample) — the claim's "if and only if the path exists on
disk *and the file is non-empty*" fails: the self-reported path
`/out/video.mp4` exists with size `0`, yet the resolver takes the
self-reported branch, reads the empty bytes into `video_data`, performs no
directory search — although the search would have found the non-empty
candidate `good.mp4` — and ends with the generic no-output failure (the
empty bytes are falsy at app.py 692).  The source's guard at line 634
checks only `os.path.exists`, never the size. -/
theorem selfReported_empty_file_counterexample :
    envC6.exists_ "/out/video.mp4" = true ∧
    envC6.getsize "/out/video.mp4" = 0 ∧
    (resolvePhase envC6 "mp4" none (some "/out/video.mp4") none "log"
      "/tmp/manim_render_c6" "Scene").step = ResolveStep.selfReported ∧
    (resolvePhase envC6 "mp4" none (some "/out/video.mp4") none "log"
      "/tmp/manim_render_c6" "Scene").videoDataVar = some [] ∧
    (resolvePhase envC6 "mp4" none (some "/out/video.mp4") none "log"
      "/tmp/manim_render_c6" "Scene").returned = (none, errNoOutput "log") ∧
    searchOutputFiles envC6 "mp4" "/tmp/manim_render_c6" "Scene"
      = ["/app/media/videos/good.mp4"] ∧
    envC6.readFile "/app/media/videos/good.mp4" = [1, 2, 3] := by
  refine ⟨by decide, by decide, by decide, by decide, by decide, by decide, by decide⟩

/-- C6 (amended) — for a non-sequence format other than the animated-image
format, the resolver takes the self-reported branch if and only if the
parsed path exists on disk (the file's size is never checked): when it
exists, the file's bytes — possibly empty — are read directly and no
directory search and no conversion happen; when it does not exist, the
branch is not taken and the ordered directory search decides instead. -/
theorem selfReported_used_iff_exists (env : Env) (fmt : String) (fps : Option Nat)
    (p : String) (mp4p : Option String) (out tempDir sceneClass : String)
    (h1 : fmt ≠ "png_sequence") (h2 : fmt ≠ "gif") (hp : p ≠ "") :
    (env.exists_ p = true →
      (resolvePhase env fmt fps (some p) mp4p out tempDir sceneClass).step
          = ResolveStep.selfReported ∧
      (resolvePhase env fmt fps (some p) mp4p out tempDir sceneClass).videoDataVar
          = some (env.readFile p) ∧
      (resolvePhase env fmt fps (some p) mp4p out tempDir sceneClass).ffmpegCalls = [])
    ∧ (env.exists_ p = false →
      (resolvePhase env fmt fps (some p) mp4p out tempDir sceneClass).step
          ≠ ResolveStep.selfReported) := by
  have hgif : (fmt == "gif") = false := by simp [h2]
  have hpng : (fmt == "png_sequence") = false := by simp [h1]
  have hearly : earlyGifCond env fmt (some p) mp4p = false := by
    simp [earlyGifCond, hgif]
  have hpath : pathAfterEarlyGif env fmt fps (some p) mp4p tempDir sceneClass = some p := by
    simp [pathAfterEarlyGif, hearly]
  have hcalls : earlyGifCalls env fmt fps (some p) mp4p tempDir sceneClass = [] := by
    simp [earlyGifCalls, hearly]
  have hptruthy : optTruthyStr (some p) = true := by
    simp [optTruthyStr, isEmpty_false_of_ne p hp]
  constructor
  · intro hex
    have hstep : resolvePhase env fmt fps (some p) mp4p out tempDir sceneClass
        = finishTail env fmt fps out tempDir sceneClass
            (some (env.readFile p)) [] ResolveStep.selfReported := by
      unfold resolvePhase
      simp only [hpng, hpath, hcalls, hptruthy, hex, Bool.false_eq_true, if_false,
        Bool.and_self, if_true, Option.getD_some]
    rw [hstep]
    obtain ⟨hv, hs, hc⟩ := finishTail_some_not_gif env fmt fps out tempDir sceneClass
      (env.readFile p) [] ResolveStep.selfReported hgif
    exact ⟨hs, hv, hc⟩
  · intro hex
    have hstep : resolvePhase env fmt fps (some p) mp4p out tempDir sceneClass
        = (match searchOutputFiles env fmt tempDir sceneClass with
          | [] => finishTail env fmt fps out tempDir sceneClass none []
              ResolveStep.unresolved
          | f :: fs =>
            finishTail env fmt fps out tempDir sceneClass
              (some (env.readFile (pyMaxNe env.getctime f fs))) []
              ResolveStep.dirSearch) := by
      unfold resolvePhase
      simp only [hpng, hpath, hcalls, hptruthy, hex, hgif, Bool.false_eq_true, if_false,
        Bool.and_false, Bool.false_and, Option.getD_some]
    rw [hstep]
    cases hsearch : searchOutputFiles env fmt tempDir sceneClass with
    | nil =>
      have := (finishTail_none_not_gif env fmt fps out tempDir sceneClass []
        ResolveStep.unresolved hgif).2.1
      simp only [this]
      intro hcontra
      exact ResolveStep.noConfusion hcontra
    | cons f fs =>
      have := (finishTail_some_not_gif env fmt fps out tempDir sceneClass
        (env.readFile (pyMaxNe env.getctime f fs)) [] ResolveStep.dirSearch hgif).2.1
      simp only [this]
      intro hcontra
      exact ResolveStep.noConfusion hcontra

/-- Witness for C6 (amended): over `envC6` the existing self-reported file
is used directly — step tag, captured bytes and absence of conversions all
observed. -/
theorem selfReported_used_iff_exists_witness :
    (resolvePhase envC6 "mp4" none (some "/out/video.mp4") none "log"
        "/tmp/manim_render_c6" "Scene").step = ResolveStep.selfReported ∧
    (resolvePhase envC6 "mp4" none (some "/out/video.mp4") none "log"
        "/tmp/manim_render_c6" "Scene").videoDataVar
      = some (envC6.readFile "/out/video.mp4") ∧
    (resolvePhase envC6 "mp4" none (some "/out/video.mp4") none "log"
        "/tmp/manim_render_c6" "Scene").ffmpegCalls = [] := by
  exact (selfReported_used_iff_exists envC6 "mp4" none "/out/video.mp4" none "log"
    "/tmp/manim_render_c6" "Scene" (by decide) (by decide) (by decide)).1 (by decide)

/-- C7 — whenever the requested format is `gif`, no usable self-reported
artifact exists, and the tracked intermediate MP4 exists on disk, the
fallback converter is invoked (the FFmpeg call list is non-empty), and
every FFmpeg invocation of the run carries the fixed, deterministic
argument vector built by `mp4_to_gif`: some source file, the filter graph
`fps=<r>,scale=640:-1:flags=lanczos` with the two-pass
palettegen/paletteuse split, the loop flag `-loop 0`, and the fixed
`<scene>_converted.gif` output inside the job directory — where the rate
`r` is the requested frame rate when one is specified (any positive
value) and the default `15` when none is. -/
theorem gif_fallback_fixed_command (env : Env) (fps : Option Nat)
    (ofp : Option String) (mp : String) (out tempDir sceneClass : String)
    (hofp : (optTruthyStr ofp && env.exists_ (ofp.getD "")) = false)
    (hmp : mp ≠ "") (hex : env.exists_ mp = true) :
    (resolvePhase env "gif" fps ofp (some mp) out tempDir sceneClass).ffmpegCalls ≠ [] ∧
    (∀ c ∈ (resolvePhase env "gif" fps ofp (some mp) out tempDir sceneClass).ffmpegCalls,
      ∃ src, c = ffmpegCommand src (pjoin tempDir (sceneClass ++ "_converted.gif"))
        (gifFps fps)) ∧
    gifFps none = 15 ∧ (∀ n, 0 < n → gifFps (some n) = n) := by
  have hmpt : optTruthyStr (some mp) = true := by
    simp [optTruthyStr, isEmpty_false_of_ne mp hmp]
  have hearly : earlyGifCond env "gif" ofp (some mp) = true := by
    simp [earlyGifCond, hofp, hmpt, hex]
  have hcallsEq : earlyGifCalls env "gif" fps ofp (some mp) tempDir sceneClass
      = [ffmpegCommand mp (pjoin tempDir (sceneClass ++ "_converted.gif"))
          (gifFps fps)] := by
    simp [earlyGifCalls, hearly]
  obtain ⟨extra, hdecomp, hextra⟩ :=
    resolvePhase_calls_decomp env "gif" fps ofp (some mp) out tempDir sceneClass
  refine ⟨?_, ?_, rfl, ?_⟩
  · rw [hdecomp, hcallsEq]
    simp
  · intro c hc
    rw [hdecomp, hcallsEq] at hc
    rcases List.mem_append.mp hc with hc | hc
    · rw [List.mem_singleton] at hc
      exact ⟨mp, hc⟩
    · exact hextra c hc
  · intro n hn
    have hne : (n != 0) = true := by
      simp only [bne_iff_ne, ne_eq]
      omega
    simp [gifFps, hne]

/-- Engine produced only an MP4; FFmpeg always fails; nothing else on
disk. -/
def envC7 : Env :=
  { exists_ := fun p => p == "/x/v.mp4",
    getsize := fun _ => 1, readFile := fun _ => [1], getctime := fun _ => 0,
    walkFiles := fun _ => [], walkSubdirs := fun _ => [], listdir := fun _ => [],
    ffmpegOk := fun _ => false, cwd := "/app", mkdtempPath := "/tmp/manim_render_c7" }

/-- Witness for C7: requested rate `24`, self-reported path absent,
intermediate MP4 present. -/
theorem gif_fallback_fixed_command_witness :
    (resolvePhase envC7 "gif" (some 24) none (some "/x/v.mp4") "log"
      "/tmp/manim_render_c7" "MyScene").ffmpegCalls ≠ [] ∧
    (∀ c ∈ (resolvePhase envC7 "gif" (some 24) none (some "/x/v.mp4") "log"
        "/tmp/manim_render_c7" "MyScene").ffmpegCalls,
      ∃ src, c = ffmpegCommand src
        (pjoin "/tmp/manim_render_c7" ("MyScene" ++ "_converted.gif"))
        (gifFps (some 24))) ∧
    gifFps none = 15 ∧ (∀ n, 0 < n → gifFps (some n) = n) :=
  gif_fallback_fixed_command envC7 (some 24) none "/x/v.mp4" "log"
    "/tmp/manim_render_c7" "MyScene" (by decide) (by decide) (by decide)

/-- Run A for C8: format `gif`, converter invoked and failing, no other
artifact anywhere. -/
def envC8a : Env :=
  { exists_ := fun p => p == "/x/v.mp4",
    getsize := fun _ => 1, readFile := fun _ => [1], getctime := fun _ => 0,
    walkFiles := fun _ => [], walkSubdirs := fun _ => [], listdir := fun _ => [],
    ffmpegOk := fun _ => false, cwd := "/app", mkdtempPath := "/tmp/manim_render_c8" }

/-- Run B for C8: format `mp4`, nothing on disk at all — the pure
engine-failure case, no converter involvement. -/
def envC8b : Env :=
  { exists_ := fun _ => false,
    getsize := fun _ => 0, readFile := fun _ => [], getctime := fun _ => 0,
    walkFiles := fun _ => [], walkSubdirs := fun _ => [], listdir := fun _ => [],
    ffmpegOk := fun _ => false, cwd := "/app", mkdtempPath := "/tmp/manim_render_c8" }

/-- C8 (counterexample) — the claim fails: run A invokes the fallback
converter, which fails (no call ever succeeds), while run B involves no
converter at all (engine produced nothing); both return the *identical*
generic status of app.py 737.  The two failure kinds are conflated in the
caller-facing result. -/
theorem conversion_failure_status_counterexample :
    (resolvePhase envC8a "gif" none none (some "/x/v.mp4") "log"
      "/tmp/manim_render_c8" "Scene").ffmpegCalls ≠ [] ∧
    (resolvePhase envC8b "mp4" none none none "log"
      "/tmp/manim_render_c8" "Scene").ffmpegCalls = [] ∧
    (resolvePhase envC8a "gif" none none (some "/x/v.mp4") "log"
        "/tmp/manim_render_c8" "Scene").returned
      = (resolvePhase envC8b "mp4" none none none "log"
        "/tmp/manim_render_c8" "Scene").returned ∧
    (resolvePhase envC8a "gif" none none (some "/x/v.mp4") "log"
        "/tmp/manim_render_c8" "Scene").returned = (none, errNoOutput "log") := by
  refine ⟨by decide, by decide, by decide, by decide⟩

/-- C8 (amended) — when the fallback converter is invoked and the
conversion tool fails (and no artifact is otherwise discoverable), the
job's returned status is the *same* generic no-output error that a pure
engine failure produces (app.py 737): the returned result does not
distinguish the two failure kinds — a conversion-specific message exists
only on the conversion *success* path. -/
theorem converter_failure_conflated (env : Env) (fps : Option Nat)
    (mp : String) (out tempDir sceneClass : String)
    (hmp : mp ≠ "") (hex : env.exists_ mp = true)
    (hff : ∀ args, env.ffmpegOk args = false)
    (hwalk : ∀ d, env.walkFiles d = []) :
    (resolvePhase env "gif" fps none (some mp) out tempDir sceneClass).returned
      = (none, errNoOutput out) ∧
    (resolvePhase env "gif" fps none (some mp) out tempDir sceneClass).ffmpegCalls
      ≠ [] := by
  have hmpt : optTruthyStr (some mp) = true := by
    simp [optTruthyStr, isEmpty_false_of_ne mp hmp]
  have hnone : optTruthyStr none = false := rfl
  have hearly : earlyGifCond env "gif" none (some mp) = true := by
    simp [earlyGifCond, hnone, hmpt, hex]
  have hconv : mp4_to_gif env mp (pjoin tempDir (sceneClass ++ "_converted.gif"))
      (gifFps fps) = none := by
    simp [mp4_to_gif, hff]
  have hpath : pathAfterEarlyGif env "gif" fps none (some mp) tempDir sceneClass
      = none := by
    simp [pathAfterEarlyGif, hearly, hconv]
  have hsearch : searchOutputFiles env "gif" tempDir sceneClass = [] := by
    simp [searchOutputFiles, hwalk]
  have hagg : aggressiveMp4Files env tempDir sceneClass = [] := by
    simp [aggressiveMp4Files, hwalk]
  have hcallsEq : earlyGifCalls env "gif" fps none (some mp) tempDir sceneClass
      = [ffmpegCommand mp (pjoin tempDir (sceneClass ++ "_converted.gif"))
          (gifFps fps)] := by
    simp [earlyGifCalls, hearly]
  have hres : resolvePhase env "gif" fps none (some mp) out tempDir sceneClass
      = finishTail env "gif" fps out tempDir sceneClass none
          (earlyGifCalls env "gif" fps none (some mp) tempDir sceneClass)
          ResolveStep.unresolved := by
    unfold resolvePhase
    simp only [hpath, hsearch, optTruthyStr, Bool.false_and, if_false]
    rfl
  rw [hres]
  unfold finishTail noOutputTail
  simp only [hagg, hcallsEq]
  exact ⟨rfl, by simp⟩

/-- Witness for C8 (amended): the concrete failing-converter run A. -/
theorem converter_failure_conflated_witness :
    (resolvePhase envC8a "gif" none none (some "/x/v.mp4") "log"
        "/tmp/manim_render_c8" "Scene").returned = (none, errNoOutput "log") ∧
    (resolvePhase envC8a "gif" none none (some "/x/v.mp4") "log"
        "/tmp/manim_render_c8" "Scene").ffmpegCalls ≠ [] :=
  converter_failure_conflated envC8a none "/x/v.mp4" "log" "/tmp/manim_render_c8"
    "Scene" (by decide) (by decide) (fun args => rfl) (fun d => rfl)

/-- A string with a non-empty left part is non-empty. -/
theorem append_ne_empty_left (s t : String) (h : s.length ≠ 0) : s ++ t ≠ "" := by
  intro he
  have hlen := congrArg String.length he
  rw [String.length_append] at hlen
  simp at hlen
  omega

/-- The generic no-output status is never the empty string. -/
theorem errNoOutput_ne_empty (s : String) : errNoOutput s ≠ "" := by
  unfold errNoOutput
  apply append_ne_empty_left
  rw [String.length_append]
  have h0 : 0 <
      ("❌ Error: No output files were generated.\n\nMakim output:\n" : String).length := by
    decide
  omega

/-- Field equations of `generate_manim_video` when the validation of
app.py 394-395 passes: each observable is the resolution phase's, the
`except` handler shapes the return on a raised exception, and the
`finally` removal condition is exactly `os.path.exists(temp_dir) and
video_data is not None`. -/
theorem generate_fields (env : Env) (pythonCode formatType : String) (fps : Option Nat)
    (ofp mp4p : Option String) (out : String)
    (hcode : pythonCode ≠ "") (hfmt : formatType ≠ "") :
    (generate_manim_video env pythonCode formatType fps ofp mp4p out).raisedMsg
      = (resolvePhase env formatType fps ofp mp4p out env.mkdtempPath
          (extract_scene_class_name pythonCode)).raisedMsg ∧
    (generate_manim_video env pythonCode formatType fps ofp mp4p out).videoDataVar
      = (resolvePhase env formatType fps ofp mp4p out env.mkdtempPath
          (extract_scene_class_name pythonCode)).videoDataVar ∧
    (generate_manim_video env pythonCode formatType fps ofp mp4p out).removedTempDir
      = (env.exists_ env.mkdtempPath
        && (resolvePhase env formatType fps ofp mp4p out env.mkdtempPath
            (extract_scene_class_name pythonCode)).videoDataVar.isSome) ∧
    (generate_manim_video env pythonCode formatType fps ofp mp4p out).returned
      = (match (resolvePhase env formatType fps ofp mp4p out env.mkdtempPath
            (extract_scene_class_name pythonCode)).raisedMsg with
        | some m => (none, "❌ Error: " ++ m)
        | none => (resolvePhase env formatType fps ofp mp4p out env.mkdtempPath
            (extract_scene_class_name pythonCode)).returned) := by
  have hcE : pythonCode.isEmpty = false := isEmpty_false_of_ne _ hcode
  have hfE : formatType.isEmpty = false := isEmpty_false_of_ne _ hfmt
  unfold generate_manim_video
  simp only [hcE, hfE, Bool.or_self, Bool.false_eq_true, if_false]
  exact ⟨trivial, trivial, trivial, trivial⟩

/-- Behaviour of the resolution phase for the PNG-sequence format: the
`video_data` variable is never set; when the candidate search finds the
newest directory holding PNG files, the archiving step raises the
`zipfile` `NameError`; and when no exception is raised the body returns
the generic no-output failure. -/
theorem resolvePhase_png_facts (env : Env) (fps : Option Nat)
    (ofp mp4p : Option String) (out tempDir sceneClass : String) :
    ((resolvePhase env "png_sequence" fps ofp mp4p out tempDir sceneClass).raisedMsg
        = none →
      (resolvePhase env "png_sequence" fps ofp mp4p out tempDir sceneClass).returned
        = (none, errNoOutput out)) ∧
    (∀ d ds, pngDirs env tempDir sceneClass = d :: ds →
      (pngFilesIn env (pyMaxNe env.getctime d ds)).isEmpty = false →
      (resolvePhase env "png_sequence" fps ofp mp4p out tempDir sceneClass).raisedMsg
        = some zipfileNameError) ∧
    (resolvePhase env "png_sequence" fps ofp mp4p out tempDir sceneClass).videoDataVar
      = none := by
  have hgif : (("png_sequence" : String) == "gif") = false := by decide
  have hearly : earlyGifCond env "png_sequence" ofp mp4p = false := by
    simp [earlyGifCond, hgif]
  have hcalls : earlyGifCalls env "png_sequence" fps ofp mp4p tempDir sceneClass
      = [] := by
    simp [earlyGifCalls, hearly]
  have hres : resolvePhase env "png_sequence" fps ofp mp4p out tempDir sceneClass
      = (match pngDirs env tempDir sceneClass with
        | [] => finishTail env "png_sequence" fps out tempDir sceneClass none []
            ResolveStep.pngSequence
        | d :: ds =>
          if !(pngFilesIn env (pyMaxNe env.getctime d ds)).isEmpty then
            { videoDataVar := none, returned := (none, ""),
              raisedMsg := some zipfileNameError, ffmpegCalls := [],
              step := ResolveStep.pngSequence }
          else finishTail env "png_sequence" fps out tempDir sceneClass none []
            ResolveStep.pngSequence) := by
    unfold resolvePhase
    simp only [hcalls]
    rfl
  obtain ⟨hv0, hs0, hr0⟩ := finishTail_none_not_gif env "png_sequence" fps out tempDir
    sceneClass [] ResolveStep.pngSequence hgif
  rw [hres]
  cases hdirs : pngDirs env tempDir sceneClass with
  | nil =>
    exact ⟨fun _ => hr0, fun d ds hd => absurd hd (by simp), hv0⟩
  | cons d0 ds0 =>
    cases hfiles : (pngFilesIn env (pyMaxNe env.getctime d0 ds0)).isEmpty with
    | false =>
      simp only [hfiles, Bool.not_false, if_true]
      refine ⟨fun hc => absurd hc (by simp), ?_, ?_⟩ <;> simp
    | true =>
      simp only [hfiles, Bool.not_true, Bool.false_eq_true, if_false]
      refine ⟨fun _ => hr0, ?_, hv0⟩
      intro d ds hd hne
      injection hd with hd1 hd2
      subst hd1
      subst hd2
      rw [hfiles] at hne
      exact Bool.noConfusion hne

/-- C10 — for the PNG-sequence format, `generate_manim_video` can never
return a non-null artifact: the only code path that would set `video_data`
for this format first evaluates `zipfile.ZipFile` at app.py 621, but
`zipfile` is never imported in app.py (imports: lines 1-25), so whenever
the candidate search finds a newest directory with PNG files that step
raises `NameError`, the top-level handler catches it, and the call returns
a null artifact with a non-empty error status; on every other path the
call likewise returns a null artifact with the non-empty no-output
status. -/
theorem png_sequence_never_returns_artifact (env : Env) (pythonCode : String)
    (fps : Option Nat) (ofp mp4p : Option String) (out : String)
    (hcode : pythonCode ≠ "") :
    ((generate_manim_video env pythonCode "png_sequence" fps ofp mp4p out).returned.1
        = none ∧
      (generate_manim_video env pythonCode "png_sequence" fps ofp mp4p out).returned.2
        ≠ "") ∧
    (∀ d ds,
      pngDirs env env.mkdtempPath (extract_scene_class_name pythonCode) = d :: ds →
      (pngFilesIn env (pyMaxNe env.getctime d ds)).isEmpty = false →
      (generate_manim_video env pythonCode "png_sequence" fps ofp mp4p out).raisedMsg
          = some zipfileNameError ∧
      (generate_manim_video env pythonCode "png_sequence" fps ofp mp4p out).returned
          = (none, "❌ Error: " ++ zipfileNameError)) := by
  obtain ⟨hraise, hvd, hrem, hret⟩ := generate_fields env pythonCode "png_sequence"
    fps ofp mp4p out hcode (by decide)
  obtain ⟨himp, hzip, hvnone⟩ := resolvePhase_png_facts env fps ofp mp4p out
    env.mkdtempPath (extract_scene_class_name pythonCode)
  constructor
  · rw [hret]
    cases hr : (resolvePhase env "png_sequence" fps ofp mp4p out env.mkdtempPath
        (extract_scene_class_name pythonCode)).raisedMsg with
    | some m =>
      exact ⟨rfl, append_ne_empty_left _ _ (by decide)⟩
    | none =>
      rw [himp hr]
      exact ⟨rfl, errNoOutput_ne_empty out⟩
  · intro d ds hd hne
    have hz := hzip d ds hd hne
    refine ⟨by rw [hraise]; exact hz, ?_⟩
    rw [hret, hz]

/-- Witness for C10: one found PNG directory containing one PNG file. -/
def envC10 : Env :=
  { exists_ := fun p => p == "/app/media/images/MyScene/Animations"
      || p == "/app/media/images/MyScene/Animations/frames1",
    getsize := fun _ => 1, readFile := fun _ => [1], getctime := fun _ => 0,
    walkFiles := fun _ => [],
    walkSubdirs := fun d => if d == "/app/media/images/MyScene/Animations"
      then [("/app/media/images/MyScene/Animations", "frames1")] else [],
    listdir := fun d => if d == "/app/media/images/MyScene/Animations/frames1"
      then ["f1.png"] else [],
    ffmpegOk := fun _ => false, cwd := "/app", mkdtempPath := "/tmp/manim_render_c10" }

theorem png_sequence_never_returns_artifact_witness :
    ((generate_manim_video envC10 "x" "png_sequence" none none none "").returned.1
        = none ∧
      (generate_manim_video envC10 "x" "png_sequence" none none none "").returned.2
        ≠ "") ∧
    ((generate_manim_video envC10 "x" "png_sequence" none none none "").raisedMsg
        = some zipfileNameError ∧
      (generate_manim_video envC10 "x" "png_sequence" none none none "").returned
        = (none, "❌ Error: " ++ zipfileNameError)) := by
  have h := png_sequence_never_returns_artifact envC10 "x" none none none ""
    (by decide)
  refine ⟨h.1, h.2 "/app/media/images/MyScene/Animations/frames1" [] (by decide)
    (by decide)⟩

/-- A run in which resolution fails: only the job directory itself exists,
and it is empty. -/
def envC1 : Env :=
  { exists_ := fun p => p == "/tmp/manim_render_c1",
    getsize := fun _ => 0, readFile := fun _ => [], getctime := fun _ => 0,
    walkFiles := fun _ => [], walkSubdirs := fun _ => [], listdir := fun _ => [],
    ffmpegOk := fun _ => false, cwd := "/app", mkdtempPath := "/tmp/manim_render_c1" }

/-- C1 (counterexample) — the claim fails on the resolution-failure exit
path: the run ends with no artifact bytes captured, the job's temporary
directory still exists, and the `finally` block (app.py 753-760) does
*not* remove it, because its guard requires `video_data is not None`.  The
directory is leaked, contradicting removal "on every exit path …
including the case where no artifact bytes were ever captured". -/
theorem workspace_cleanup_counterexample :
    envC1.exists_ envC1.mkdtempPath = true ∧
    (generate_manim_video envC1 "class Foo(Scene): pass" "mp4" none none none
      "").returned.1 = none ∧
    (generate_manim_video envC1 "class Foo(Scene): pass" "mp4" none none none
      "").videoDataVar = none ∧
    (generate_manim_video envC1 "class Foo(Scene): pass" "mp4" none none none
      "").removedTempDir = false := by
  refine ⟨by decide, by decide, by decide, by decide⟩

/-- C1 (amended) — the temporary directory is removed before the call
returns *exactly* on those exit paths where artifact bytes were captured
into the `video_data` variable (and the directory still exists): the
removal condition of the `finally` block equals
`os.path.exists(temp_dir) and video_data is not None`.  Removal still
happens only after the bytes are in memory — whenever the call returns
artifact bytes, those very bytes are the captured `video_data`.  On exit
paths where no bytes were captured (resolution failure, conversion
failure, or an exception) the directory is not removed. -/
theorem workspace_removed_iff_bytes_captured (env : Env)
    (pythonCode formatType : String) (fps : Option Nat)
    (ofp mp4p : Option String) (out : String)
    (hcode : pythonCode ≠ "") (hfmt : formatType ≠ "") :
    (generate_manim_video env pythonCode formatType fps ofp mp4p out).removedTempDir
      = (env.exists_ env.mkdtempPath
        && ((generate_manim_video env pythonCode formatType fps ofp mp4p
            out).videoDataVar).isSome) ∧
    (∀ b msg,
      (generate_manim_video env pythonCode formatType fps ofp mp4p out).returned
          = (some b, msg) →
      (generate_manim_video env pythonCode formatType fps ofp mp4p out).videoDataVar
          = some b) := by
  obtain ⟨hraise, hvd, hrem, hret⟩ := generate_fields env pythonCode formatType
    fps ofp mp4p out hcode hfmt
  constructor
  · rw [hrem, hvd]
  · intro b msg h
    rw [hret] at h
    rw [hvd]
    cases hr : (resolvePhase env formatType fps ofp mp4p out env.mkdtempPath
        (extract_scene_class_name pythonCode)).raisedMsg with
    | some m =>
      rw [hr] at h
      simp [Prod.mk.injEq] at h
    | none =>
      rw [hr] at h
      exact resolvePhase_returned_bytes env formatType fps ofp mp4p out
        env.mkdtempPath (extract_scene_class_name pythonCode) b msg h

/-- A run whose self-reported path exists with non-empty bytes, so the
artifact is captured and the directory is removed. -/
def envC1w : Env :=
  { exists_ := fun p => p == "/tmp/manim_render_c1" || p == "/out/f.mp4",
    getsize := fun _ => 2, readFile := fun _ => [1, 2], getctime := fun _ => 0,
    walkFiles := fun _ => [], walkSubdirs := fun _ => [], listdir := fun _ => [],
    ffmpegOk := fun _ => false, cwd := "/app", mkdtempPath := "/tmp/manim_render_c1" }

/-- Witness for C1 (amended), instantiated on a successful capture. -/
theorem workspace_removed_iff_bytes_captured_witness :
    (generate_manim_video envC1w "class Foo(Scene): pass" "mp4" none
      (some "/out/f.mp4") none "").removedTempDir
      = (envC1w.exists_ envC1w.mkdtempPath
        && ((generate_manim_video envC1w "class Foo(Scene): pass" "mp4" none
            (some "/out/f.mp4") none "").videoDataVar).isSome) ∧
    (∀ b msg,
      (generate_manim_video envC1w "class Foo(Scene): pass" "mp4" none
        (some "/out/f.mp4") none "").returned = (some b, msg) →
      (generate_manim_video envC1w "class Foo(Scene): pass" "mp4" none
        (some "/out/f.mp4") none "").videoDataVar = some b) :=
  workspace_removed_iff_bytes_captured envC1w "class Foo(Scene): pass" "mp4" none
    (some "/out/f.mp4") none "" (by decide) (by decide)

end ManimBuild
